import Mathlib

/-!
Verification development for the MediConnect hospital-management backend
(Express + Prisma over PostgreSQL).

The store (six Prisma tables) is embedded as lists of records; every mutating
route handler is translated into a pure function from a request body and a
store to an `Except` of an error and the new store.  Identifier generation
(uuid) and the clock (`new Date()`) are passed in as explicit parameters.
Timestamps are modelled as natural numbers, monetary values (`cost`,
PostgreSQL `DOUBLE PRECISION`) as rationals with exact arithmetic.

Scalar profile fields that no modelled route inspects (names, addresses,
blood groups, `createdAt`/`updatedAt`, ...) are omitted from the records;
the routes only copy them through.
-/

namespace MediConnect

/-- Role enum from the Prisma schema (migration.sql). -/
inductive Role
  | ADMIN | DOCTOR | RECEPTIONIST | INVENTORY_MANAGER
deriving DecidableEq, Repr

/-- AppointmentStatus enum from the Prisma schema. -/
inductive AppointmentStatus
  | SCHEDULED | IN_QUEUE | IN_PROGRESS | COMPLETED | CANCELLED
deriving DecidableEq, Repr

/-- AppointmentType enum from the Prisma schema. -/
inductive AppointmentType
  | GENERAL | FOLLOW_UP | SPECIALIST | EMERGENCY
deriving DecidableEq, Repr

/-- BedStatus enum from the Prisma schema. -/
inductive BedStatus
  | AVAILABLE | OCCUPIED | MAINTENANCE
deriving DecidableEq, Repr

/-- WardType enum from the Prisma schema. -/
inductive WardType
  | GENERAL | ICU | EMERGENCY | PEDIATRIC | MATERNITY | PSYCHIATRIC
deriving DecidableEq, Repr

/-- AdmissionStatus enum from the Prisma schema. -/
inductive AdmissionStatus
  | ACTIVE | DISCHARGED | TRANSFERRED
deriving DecidableEq, Repr

/-- InventoryCategory enum from the Prisma schema. -/
inductive InventoryCategory
  | MEDICINE | EQUIPMENT | SUPPLIES
deriving DecidableEq, Repr

/-- User row (table User).  Only the fields the routes inspect. -/
structure User where
  id : Nat
  role : Role
deriving DecidableEq, Repr

/-- Patient row (table Patient).  Only the fields the routes inspect. -/
structure Patient where
  id : Nat
  mrn : String
deriving DecidableEq, Repr

/-- Appointment row (table Appointment). -/
structure Appointment where
  id : Nat
  patientId : Nat
  doctorId : Nat
  date : Nat
  time : String
  status : AppointmentStatus
  type : AppointmentType
  notes : Option String
  queueNumber : Option Nat
deriving DecidableEq, Repr

/-- Bed row (table Bed). -/
structure Bed where
  id : Nat
  bedNumber : String
  ward : WardType
  status : BedStatus
  patientId : Option Nat
  admissionDate : Option Nat
  expectedDischargeDate : Option Nat
  notes : Option String
deriving DecidableEq, Repr

/-- Admission row (table Admission). -/
structure Admission where
  id : Nat
  patientId : Nat
  bedId : Nat
  doctorId : Nat
  admissionDate : Nat
  dischargeDate : Option Nat
  status : AdmissionStatus
  diagnosis : Option String
  notes : Option String
deriving DecidableEq, Repr

/-- InventoryItem row (table InventoryItem). -/
structure InventoryItem where
  id : Nat
  name : String
  category : InventoryCategory
  description : Option String
  unit : String
  quantity : Nat
  reorderLevel : Nat
  cost : Rat
  supplier : Option String
  expiryDate : Option Nat
  location : Option String
deriving DecidableEq, Repr

/-- The relational store: one list per table, rows kept in insertion order
(new rows are appended), matching the creation order of the database. -/
structure Store where
  patients : List Patient
  users : List User
  beds : List Bed
  admissions : List Admission
  appointments : List Appointment
  inventory : List InventoryItem
deriving DecidableEq, Repr

/-- Operational errors the route handlers report (each constructor stands for
one distinct `res.status(4xx).json(\x7b error: true, message \x7d)` reply;
`foreignKeyRestrict` stands for the 500 reply produced when the database
rejects a delete because of an ON DELETE RESTRICT foreign key). -/
inductive ApiErr
  | patientNotFound
  | bedNotFound
  | bedNotAvailable
  | validDoctorNotFound
  | duplicateActiveAdmission
  | admissionNotFound
  | bedNumberExists
  | patientIdRequiredForOccupied
  | cannotDeleteOccupiedBed
  | bedHasActiveAdmissions
  | appointmentNotFound
  | inventoryItemNotFound
  | mrnInUse
  | patientHasActiveDependents
  | foreignKeyRestrict
deriving DecidableEq, Repr

/-- JavaScript update idiom for a nullable column, `body.field || old`:
an absent field (undefined) or an empty string (falsy) keeps the old value. -/
def jsOrOpt (newv : Option String) (old : Option String) : Option String :=
  match newv with
  | none => old
  | some s => if s = "" then old else some s

/-- JavaScript update idiom for a required string column, `body.field || old`. -/
def jsOrStr (newv : Option String) (old : String) : String :=
  match newv with
  | none => old
  | some s => if s = "" then old else s

/-- Prisma data-object semantics for a nullable column: `undefined` leaves the
column unchanged, any present value (empty string included) is written. -/
def prismaSetOpt (newv : Option String) (old : Option String) : Option String :=
  match newv with
  | none => old
  | some s => some s

/-! ## Admissions router (routes/admissions.js) -/

/-- Request body of POST /api/admissions after express-validator
(patientId, bedId, doctorId are UUIDs, admissionDate a date; the rest
is passed through unvalidated). -/
structure AdmissionCreateBody where
  patientId : Nat
  bedId : Nat
  doctorId : Nat
  admissionDate : Nat
  expectedDischargeDate : Option Nat
  diagnosis : Option String
  notes : Option String
deriving DecidableEq, Repr

/-- POST /api/admissions: resolve patient, bed (must be AVAILABLE), doctor
(role DOCTOR), reject a duplicate active admission, then in one transaction
mark the bed OCCUPIED for the patient and create the ACTIVE admission.
`newId` is the uuid the database generates for the new row. -/
def admissionsCreate (body : AdmissionCreateBody) (newId : Nat) (s : Store) :
    Except ApiErr (Store × Admission) :=
  match s.patients.find? (fun p => decide (p.id = body.patientId)) with
  | none => .error .patientNotFound
  | some _ =>
  match s.beds.find? (fun b => decide (b.id = body.bedId)) with
  | none => .error .bedNotFound
  | some bed =>
  if bed.status ≠ .AVAILABLE then .error .bedNotAvailable
  else
  match s.users.find? (fun u => decide (u.id = body.doctorId)) with
  | none => .error .validDoctorNotFound
  | some doctor =>
  if doctor.role ≠ .DOCTOR then .error .validDoctorNotFound
  else
  match s.admissions.find?
      (fun a => decide (a.patientId = body.patientId ∧ a.status = .ACTIVE)) with
  | some _ => .error .duplicateActiveAdmission
  | none =>
    let beds' := s.beds.map (fun b =>
      if b.id = body.bedId then
        { b with
          status := .OCCUPIED
          patientId := some body.patientId
          admissionDate := some body.admissionDate
          expectedDischargeDate := body.expectedDischargeDate }
      else b)
    let adm : Admission :=
      { id := newId
        patientId := body.patientId
        bedId := body.bedId
        doctorId := body.doctorId
        admissionDate := body.admissionDate
        dischargeDate := none
        status := .ACTIVE
        diagnosis := body.diagnosis
        notes := body.notes }
    .ok ({ s with beds := beds', admissions := s.admissions ++ [adm] }, adm)

/-- Request body of PUT /api/admissions/:id (status, when present, was
validated to be one of the three enum values). -/
structure AdmissionUpdateBody where
  status : Option AdmissionStatus
  dischargeDate : Option Nat
  diagnosis : Option String
  notes : Option String
deriving DecidableEq, Repr

/-- PUT /api/admissions/:id: when a status other than ACTIVE is requested for
an admission that is currently ACTIVE, update the admission (status,
dischargeDate defaulting to the current time `now`, notes) and free its bed
in one transaction; otherwise perform a simple diagnosis/notes update with no
bed side effect. -/
def admissionsUpdate (id : Nat) (body : AdmissionUpdateBody) (now : Nat) (s : Store) :
    Except ApiErr (Store × Admission) :=
  match s.admissions.find? (fun a => decide (a.id = id)) with
  | none => .error .admissionNotFound
  | some adm =>
    match body.status with
    | some r =>
      if r ≠ .ACTIVE ∧ adm.status = .ACTIVE then
        let upd : Admission :=
          { adm with
            status := r
            dischargeDate := some (body.dischargeDate.getD now)
            notes := jsOrOpt body.notes adm.notes }
        let admissions' := s.admissions.map (fun a => if a.id = id then upd else a)
        let beds' := s.beds.map (fun b =>
          if b.id = adm.bedId then
            { b with
              status := .AVAILABLE
              patientId := none
              admissionDate := none
              expectedDischargeDate := none }
          else b)
        .ok ({ s with admissions := admissions', beds := beds' }, upd)
      else
        let upd : Admission :=
          { adm with
            diagnosis := jsOrOpt body.diagnosis adm.diagnosis
            notes := jsOrOpt body.notes adm.notes }
        .ok ({ s with
               admissions := s.admissions.map (fun a => if a.id = id then upd else a) },
             upd)
    | none =>
      let upd : Admission :=
        { adm with
          diagnosis := jsOrOpt body.diagnosis adm.diagnosis
          notes := jsOrOpt body.notes adm.notes }
      .ok ({ s with
             admissions := s.admissions.map (fun a => if a.id = id then upd else a) },
           upd)

/-- DELETE /api/admissions/:id: an ACTIVE admission is deleted together with
freeing its bed in one transaction; a non-active admission row is deleted
alone. -/
def admissionsDelete (id : Nat) (s : Store) : Except ApiErr Store :=
  match s.admissions.find? (fun a => decide (a.id = id)) with
  | none => .error .admissionNotFound
  | some adm =>
    if adm.status = .ACTIVE then
      let beds' := s.beds.map (fun b =>
        if b.id = adm.bedId then
          { b with
            status := .AVAILABLE
            patientId := none
            admissionDate := none
            expectedDischargeDate := none }
        else b)
      .ok { s with
            beds := beds'
            admissions := s.admissions.filter (fun a => decide (a.id ≠ id)) }
    else
      .ok { s with admissions := s.admissions.filter (fun a => decide (a.id ≠ id)) }

/-! ## Beds router (routes/beds.js) -/

/-- Request body of POST /api/beds (ward and status validated against the
enums; a missing status falls back to AVAILABLE via the JavaScript
`req.body.status || 'AVAILABLE'`). -/
structure BedCreateBody where
  bedNumber : String
  ward : WardType
  status : Option BedStatus
  notes : Option String
deriving DecidableEq, Repr

/-- POST /api/beds: reject a duplicate bedNumber, otherwise insert the bed
with the requested (or defaulted AVAILABLE) status and no patient. -/
def bedsCreate (body : BedCreateBody) (newId : Nat) (s : Store) :
    Except ApiErr (Store × Bed) :=
  match s.beds.find? (fun b => decide (b.bedNumber = body.bedNumber)) with
  | some _ => .error .bedNumberExists
  | none =>
    let bed : Bed :=
      { id := newId
        bedNumber := body.bedNumber
        ward := body.ward
        status := body.status.getD .AVAILABLE
        patientId := none
        admissionDate := none
        expectedDischargeDate := none
        notes := body.notes }
    .ok ({ s with beds := s.beds ++ [bed] }, bed)

/-- Request body of PUT /api/beds/:id. -/
structure BedUpdateBody where
  status : Option BedStatus
  patientId : Option Nat
  admissionDate : Option Nat
  expectedDischargeDate : Option Nat
  notes : Option String
deriving DecidableEq, Repr

/-- PUT /api/beds/:id: a requested AVAILABLE or MAINTENANCE status clears the
patient association; a requested OCCUPIED status without a patientId is
rejected; a supplied patientId (after the status block falls through) sets
the bed OCCUPIED for that patient; otherwise only the notes are updated.
`now` models the `new Date()` default for admissionDate. -/
def bedsUpdate (id : Nat) (body : BedUpdateBody) (now : Nat) (s : Store) :
    Except ApiErr (Store × Bed) :=
  match s.beds.find? (fun b => decide (b.id = id)) with
  | none => .error .bedNotFound
  | some bed =>
    let statusBranch : Bool :=
      match body.status with
      | some st => decide (st ≠ bed.status)
      | none => false
    let freeing : Bool :=
      match body.status with
      | some st => decide (st = .AVAILABLE ∨ st = .MAINTENANCE)
      | none => false
    if statusBranch ∧ freeing then
      let beds' := s.beds.map (fun b =>
        if b.id = id then
          { b with
            status := body.status.getD b.status
            patientId := none
            admissionDate := none
            expectedDischargeDate := none
            notes := prismaSetOpt body.notes b.notes }
        else b)
      .ok ({ s with beds := beds' },
           { bed with
             status := body.status.getD bed.status
             patientId := none
             admissionDate := none
             expectedDischargeDate := none
             notes := prismaSetOpt body.notes bed.notes })
    else if statusBranch ∧ body.status = some .OCCUPIED ∧ body.patientId = none then
      .error .patientIdRequiredForOccupied
    else
      match body.patientId with
      | some pid =>
        match s.patients.find? (fun p => decide (p.id = pid)) with
        | none => .error .patientNotFound
        | some _ =>
          let upd : Bed → Bed := fun b =>
            { b with
              status := .OCCUPIED
              patientId := some pid
              admissionDate := some (body.admissionDate.getD now)
              expectedDischargeDate := body.expectedDischargeDate
              notes := prismaSetOpt body.notes b.notes }
          .ok ({ s with beds := s.beds.map (fun b => if b.id = id then upd b else b) },
               upd bed)
      | none =>
        let upd : Bed → Bed := fun b => { b with notes := prismaSetOpt body.notes b.notes }
        .ok ({ s with beds := s.beds.map (fun b => if b.id = id then upd b else b) },
             upd bed)

/-- DELETE /api/beds/:id: reject an OCCUPIED bed or a bed with active
admissions; the database additionally rejects the delete (ON DELETE RESTRICT
on Admission.bedId, migration.sql) while any admission row still references
the bed. -/
def bedsDelete (id : Nat) (s : Store) : Except ApiErr Store :=
  match s.beds.find? (fun b => decide (b.id = id)) with
  | none => .error .bedNotFound
  | some bed =>
    if bed.status = .OCCUPIED then .error .cannotDeleteOccupiedBed
    else if (s.admissions.filter
        (fun a => decide (a.bedId = id ∧ a.status = .ACTIVE))).length > 0 then
      .error .bedHasActiveAdmissions
    else if s.admissions.any (fun a => decide (a.bedId = id)) then
      .error .foreignKeyRestrict
    else
      .ok { s with beds := s.beds.filter (fun b => decide (b.id ≠ id)) }

/-! ## Patients router (routes/patients.js) -/

/-- POST /api/patients: reject a duplicate mrn, otherwise insert the patient
(the remaining body fields are profile scalars copied through). -/
def patientsCreate (mrn : String) (newId : Nat) (s : Store) :
    Except ApiErr (Store × Patient) :=
  match s.patients.find? (fun p => decide (p.mrn = mrn)) with
  | some _ => .error .mrnInUse
  | none =>
    let p : Patient := { id := newId, mrn := mrn }
    .ok ({ s with patients := s.patients ++ [p] }, p)

/-- DELETE /api/patients/:id: reject when the patient has appointments in
SCHEDULED/IN_QUEUE/IN_PROGRESS or an ACTIVE admission; the database further
rejects the delete (ON DELETE RESTRICT on Appointment.patientId and
Admission.patientId, migration.sql) while any appointment or admission row
references the patient, and on success clears Bed.patientId back-references
(ON DELETE SET NULL on Bed.patientId). -/
def patientsDelete (id : Nat) (s : Store) : Except ApiErr Store :=
  match s.patients.find? (fun p => decide (p.id = id)) with
  | none => .error .patientNotFound
  | some _ =>
    let activeAppointments := s.appointments.filter (fun ap =>
      decide (ap.patientId = id ∧
        (ap.status = .SCHEDULED ∨ ap.status = .IN_QUEUE ∨ ap.status = .IN_PROGRESS)))
    let activeAdmissions := s.admissions.filter (fun a =>
      decide (a.patientId = id ∧ a.status = .ACTIVE))
    if activeAppointments.length > 0 ∨ activeAdmissions.length > 0 then
      .error .patientHasActiveDependents
    else if s.appointments.any (fun ap => decide (ap.patientId = id)) ∨
        s.admissions.any (fun a => decide (a.patientId = id)) then
      .error .foreignKeyRestrict
    else
      .ok { s with
            patients := s.patients.filter (fun p => decide (p.id ≠ id))
            beds := s.beds.map (fun b =>
              if b.patientId = some id then { b with patientId := none } else b) }

/-! ## Appointments router (routes/appointments.js) -/

/-- Strict comparison of queue numbers under the PostgreSQL sort order used by
`orderBy: queueNumber desc` — PostgreSQL treats NULL as larger than every
value, so a NULL queueNumber sorts first in descending order. -/
def qnDescLt (a b : Option Nat) : Bool :=
  match a, b with
  | some x, some y => decide (x < y)
  | some _, none => true
  | none, _ => false

/-- Model of `findFirst` with `orderBy: queueNumber desc` applied to the rows
of interest, returning the queueNumber of the first row of the sorted order
(a row carrying a maximal queueNumber, NULL counting as largest); `none`
when there is no row at all. -/
def pickHighestQn : List (Option Nat) → Option (Option Nat)
  | [] => none
  | q :: rest =>
    match pickHighestQn rest with
    | none => some q
    | some q' => if qnDescLt q q' then some q' else some q

/-- Request body of POST /api/appointments (all listed fields validated). -/
structure AppointmentCreateBody where
  patientId : Nat
  doctorId : Nat
  date : Nat
  time : String
  status : AppointmentStatus
  type : AppointmentType
  notes : Option String
deriving DecidableEq, Repr

/-- Queue numbers of the non-cancelled appointments on `date`, in row
order. -/
def sameDateQns (date : Nat) (s : Store) : List (Option Nat) :=
  (s.appointments.filter
      (fun a => decide (a.date = date ∧ a.status ≠ .CANCELLED))).map
    (fun a => a.queueNumber)

/-- Queue-number computation of POST /api/appointments: for a non-cancelled
creation, fetch the same-date non-cancelled row with the highest queueNumber;
the new number is that value plus one when it is present and non-zero (the
JavaScript truthiness test `if (highestQueue && highestQueue.queueNumber)`),
and 1 otherwise. -/
def nextQueueNumber (date : Nat) (s : Store) : Nat :=
  match pickHighestQn (sameDateQns date s) with
  | some (some n) => if n = 0 then 1 else n + 1
  | _ => 1

/-- POST /api/appointments: resolve patient and doctor (role DOCTOR), compute
the queue number (null for a CANCELLED creation), insert the appointment. -/
def appointmentsCreate (body : AppointmentCreateBody) (newId : Nat) (s : Store) :
    Except ApiErr (Store × Appointment) :=
  match s.patients.find? (fun p => decide (p.id = body.patientId)) with
  | none => .error .patientNotFound
  | some _ =>
  match s.users.find? (fun u => decide (u.id = body.doctorId)) with
  | none => .error .validDoctorNotFound
  | some doctor =>
  if doctor.role ≠ .DOCTOR then .error .validDoctorNotFound
  else
    let qn : Option Nat :=
      if body.status ≠ .CANCELLED then some (nextQueueNumber body.date s) else none
    let ap : Appointment :=
      { id := newId
        patientId := body.patientId
        doctorId := body.doctorId
        date := body.date
        time := body.time
        status := body.status
        type := body.type
        notes := body.notes
        queueNumber := qn }
    .ok ({ s with appointments := s.appointments ++ [ap] }, ap)

/-- Request body of PUT /api/appointments/:id. -/
structure AppointmentUpdateBody where
  status : Option AppointmentStatus
  notes : Option String
deriving DecidableEq, Repr

/-- PUT /api/appointments/:id: update status and notes (Prisma skips the
undefined ones); the queueNumber column is never touched. -/
def appointmentsUpdate (id : Nat) (body : AppointmentUpdateBody) (s : Store) :
    Except ApiErr (Store × Appointment) :=
  match s.appointments.find? (fun a => decide (a.id = id)) with
  | none => .error .appointmentNotFound
  | some ap =>
    let upd : Appointment :=
      { ap with
        status := body.status.getD ap.status
        notes := prismaSetOpt body.notes ap.notes }
    .ok ({ s with
           appointments := s.appointments.map (fun a => if a.id = id then upd else a) },
         upd)

/-- DELETE /api/appointments/:id. -/
def appointmentsDelete (id : Nat) (s : Store) : Except ApiErr Store :=
  match s.appointments.find? (fun a => decide (a.id = id)) with
  | none => .error .appointmentNotFound
  | some _ =>
    .ok { s with appointments := s.appointments.filter (fun a => decide (a.id ≠ id)) }

/-! ## Inventory router (routes/inventory.js) -/

/-- Request body of POST /api/inventory (quantity a non-negative integer,
reorderLevel a positive integer, cost a non-negative number, per the
validators). -/
structure InventoryCreateBody where
  name : String
  category : InventoryCategory
  description : Option String
  unit : String
  quantity : Nat
  reorderLevel : Nat
  cost : Rat
  supplier : Option String
  expiryDate : Option Nat
  location : Option String
deriving DecidableEq, Repr

/-- POST /api/inventory: insert the item. -/
def inventoryCreate (body : InventoryCreateBody) (newId : Nat) (s : Store) :
    Except ApiErr (Store × InventoryItem) :=
  let item : InventoryItem :=
    { id := newId
      name := body.name
      category := body.category
      description := body.description
      unit := body.unit
      quantity := body.quantity
      reorderLevel := body.reorderLevel
      cost := body.cost
      supplier := body.supplier
      expiryDate := body.expiryDate
      location := body.location }
  .ok ({ s with inventory := s.inventory ++ [item] }, item)

/-- Request body of PUT /api/inventory/:id (quantity, when present, validated
as a non-negative integer; everything else unvalidated). -/
structure InventoryUpdateBody where
  name : Option String
  description : Option String
  quantity : Option Nat
  reorderLevel : Option Nat
  cost : Option Rat
  supplier : Option String
  expiryDate : Option Nat
  location : Option String
deriving DecidableEq, Repr

/-- PUT /api/inventory/:id: every field falls back to the stored value via
the JavaScript `||` (so 0 and the empty string are dropped), except quantity,
which uses an explicit `!== undefined` test and therefore stores 0. -/
def inventoryUpdate (id : Nat) (body : InventoryUpdateBody) (s : Store) :
    Except ApiErr (Store × InventoryItem) :=
  match s.inventory.find? (fun it => decide (it.id = id)) with
  | none => .error .inventoryItemNotFound
  | some item =>
    let upd : InventoryItem :=
      { item with
        name := jsOrStr body.name item.name
        description := jsOrOpt body.description item.description
        quantity := body.quantity.getD item.quantity
        reorderLevel :=
          match body.reorderLevel with
          | some r => if r = 0 then item.reorderLevel else r
          | none => item.reorderLevel
        cost :=
          match body.cost with
          | some c => if c = 0 then item.cost else c
          | none => item.cost
        supplier := jsOrOpt body.supplier item.supplier
        expiryDate :=
          match body.expiryDate with
          | some d => some d
          | none => item.expiryDate
        location := jsOrOpt body.location item.location }
    .ok ({ s with
           inventory := s.inventory.map (fun it => if it.id = id then upd else it) },
         upd)

/-- DELETE /api/inventory/:id. -/
def inventoryDelete (id : Nat) (s : Store) : Except ApiErr Store :=
  match s.inventory.find? (fun it => decide (it.id = id)) with
  | none => .error .inventoryItemNotFound
  | some _ =>
    .ok { s with inventory := s.inventory.filter (fun it => decide (it.id ≠ id)) }

/-! ## Dashboard router (routes/dashboard.js) -/

/-- Response body of GET /api/dashboard/summary. -/
structure DashboardSummary where
  totalPatients : Nat
  totalAppointments : Nat
  appointmentsToday : Nat
  availableBeds : Nat
  occupiedBeds : Nat
  totalBeds : Nat
  occupancyRate : Nat
  lowStockItems : Nat
  recentAdmissions : List Admission
  upcomingAppointments : List Appointment
deriving DecidableEq, Repr

/-- Exact-arithmetic reading of `Math.round((occupied / total) * 100)` for
natural counts: `Math.round x` is the floor of `x + 1/2` for non-negative
`x`, and the floor of `(200 * o + t) / (2 * t)` over the rationals is the
natural-number division below. -/
def jsRoundPercent (o t : Nat) : Nat :=
  (200 * o + t) / (2 * t)

/-- GET /api/dashboard/summary: entity counts, today's appointment count over
the half-open range, bed counts with the rounded occupancy rate (0 when
there are no beds), low-stock count (quantity ≤ reorderLevel), the 5 most
recent admissions and the next 5 upcoming appointments. -/
def dashboardSummary (today tomorrow : Nat) (s : Store) : DashboardSummary :=
  let allBeds := s.beds.length
  let occupied := (s.beds.filter (fun b => decide (b.status = .OCCUPIED))).length
  { totalPatients := s.patients.length
    totalAppointments := s.appointments.length
    appointmentsToday := (s.appointments.filter
      (fun a => decide (today ≤ a.date ∧ a.date < tomorrow))).length
    availableBeds := (s.beds.filter (fun b => decide (b.status = .AVAILABLE))).length
    occupiedBeds := occupied
    totalBeds := allBeds
    occupancyRate := if allBeds > 0 then jsRoundPercent occupied allBeds else 0
    lowStockItems := (s.inventory.filter
      (fun it => decide (it.quantity ≤ it.reorderLevel))).length
    recentAdmissions :=
      (s.admissions.mergeSort (fun a b => decide (b.admissionDate ≤ a.admissionDate))).take 5
    upcomingAppointments :=
      ((s.appointments.filter (fun a =>
          decide (today ≤ a.date ∧ (a.status = .SCHEDULED ∨ a.status = .IN_QUEUE)))).mergeSort
        (fun a b => decide (a.date < b.date ∨ (a.date = b.date ∧ a.time ≤ b.time)))).take 5 }

/-! ## Reachability

The server starts against a database whose User table is populated from outside
(Clerk identities, seeded by prisma/seed.js); no route of this repository
creates or deletes users.  Every other table starts empty and evolves only
through the mutating route handlers above.  Failed requests leave the store
unchanged (`runStore` / `runStore0` keep the old store on an error). -/

/-- Initial store: a pre-provisioned user table, all other tables
empty. -/
def initStore (users : List User) : Store :=
  { patients := [], users := users, beds := [], admissions := [],
    appointments := [], inventory := [] }

/-- New store of a payload-returning handler; the old store when the request
failed. -/
def runStore (s : Store) : Except ApiErr (Store × α) → Store
  | .ok (s', _) => s'
  | .error _ => s

/-- New store of a delete handler; the old store when the request failed. -/
def runStore0 (s : Store) : Except ApiErr Store → Store
  | .ok s' => s'
  | .error _ => s

/-- Store states reachable from an initial store through any sequence of
mutating requests.  Creation constructors carry the database's guarantee
that the generated uuid is fresh for its table.  (Patient PUT is omitted: it
writes only profile scalars that are not part of the modelled rows, and
never the mrn.) -/
inductive FullReach : Store → Prop
  | init (users : List User) : FullReach (initStore users)
  | patientsCreateStep (s : Store) (mrn : String) (newId : Nat)
      (h : FullReach s) (hfresh : ∀ p ∈ s.patients, p.id ≠ newId) :
      FullReach (runStore s (patientsCreate mrn newId s))
  | patientsDeleteStep (s : Store) (id : Nat) (h : FullReach s) :
      FullReach (runStore0 s (patientsDelete id s))
  | bedsCreateStep (s : Store) (body : BedCreateBody) (newId : Nat)
      (h : FullReach s) (hfresh : ∀ b ∈ s.beds, b.id ≠ newId) :
      FullReach (runStore s (bedsCreate body newId s))
  | bedsUpdateStep (s : Store) (id : Nat) (body : BedUpdateBody) (now : Nat)
      (h : FullReach s) :
      FullReach (runStore s (bedsUpdate id body now s))
  | bedsDeleteStep (s : Store) (id : Nat) (h : FullReach s) :
      FullReach (runStore0 s (bedsDelete id s))
  | admissionsCreateStep (s : Store) (body : AdmissionCreateBody) (newId : Nat)
      (h : FullReach s) (hfresh : ∀ a ∈ s.admissions, a.id ≠ newId) :
      FullReach (runStore s (admissionsCreate body newId s))
  | admissionsUpdateStep (s : Store) (id : Nat) (body : AdmissionUpdateBody) (now : Nat)
      (h : FullReach s) :
      FullReach (runStore s (admissionsUpdate id body now s))
  | admissionsDeleteStep (s : Store) (id : Nat) (h : FullReach s) :
      FullReach (runStore0 s (admissionsDelete id s))
  | appointmentsCreateStep (s : Store) (body : AppointmentCreateBody) (newId : Nat)
      (h : FullReach s) (hfresh : ∀ a ∈ s.appointments, a.id ≠ newId) :
      FullReach (runStore s (appointmentsCreate body newId s))
  | appointmentsUpdateStep (s : Store) (id : Nat) (body : AppointmentUpdateBody)
      (h : FullReach s) :
      FullReach (runStore s (appointmentsUpdate id body s))
  | appointmentsDeleteStep (s : Store) (id : Nat) (h : FullReach s) :
      FullReach (runStore0 s (appointmentsDelete id s))
  | inventoryCreateStep (s : Store) (body : InventoryCreateBody) (newId : Nat)
      (h : FullReach s) (hfresh : ∀ it ∈ s.inventory, it.id ≠ newId) :
      FullReach (runStore s (inventoryCreate body newId s))
  | inventoryUpdateStep (s : Store) (id : Nat) (body : InventoryUpdateBody)
      (h : FullReach s) :
      FullReach (runStore s (inventoryUpdate id body s))
  | inventoryDeleteStep (s : Store) (id : Nat) (h : FullReach s) :
      FullReach (runStore0 s (inventoryDelete id s))

/-- Store states reachable without the two bed endpoints that write a bed
status directly with no admission bookkeeping: PUT /api/beds/:id is excluded
altogether, and POST /api/beds is restricted to requests that do not ask for
an OCCUPIED status.  All admission endpoints are included. -/
inductive SafeReach : Store → Prop
  | init (users : List User) : SafeReach (initStore users)
  | patientsCreateStep (s : Store) (mrn : String) (newId : Nat)
      (h : SafeReach s) (hfresh : ∀ p ∈ s.patients, p.id ≠ newId) :
      SafeReach (runStore s (patientsCreate mrn newId s))
  | patientsDeleteStep (s : Store) (id : Nat) (h : SafeReach s) :
      SafeReach (runStore0 s (patientsDelete id s))
  | bedsCreateStep (s : Store) (body : BedCreateBody) (newId : Nat)
      (h : SafeReach s) (hfresh : ∀ b ∈ s.beds, b.id ≠ newId)
      (hstatus : body.status ≠ some .OCCUPIED) :
      SafeReach (runStore s (bedsCreate body newId s))
  | bedsDeleteStep (s : Store) (id : Nat) (h : SafeReach s) :
      SafeReach (runStore0 s (bedsDelete id s))
  | admissionsCreateStep (s : Store) (body : AdmissionCreateBody) (newId : Nat)
      (h : SafeReach s) (hfresh : ∀ a ∈ s.admissions, a.id ≠ newId) :
      SafeReach (runStore s (admissionsCreate body newId s))
  | admissionsUpdateStep (s : Store) (id : Nat) (body : AdmissionUpdateBody) (now : Nat)
      (h : SafeReach s) :
      SafeReach (runStore s (admissionsUpdate id body now s))
  | admissionsDeleteStep (s : Store) (id : Nat) (h : SafeReach s) :
      SafeReach (runStore0 s (admissionsDelete id s))
  | appointmentsCreateStep (s : Store) (body : AppointmentCreateBody) (newId : Nat)
      (h : SafeReach s) (hfresh : ∀ a ∈ s.appointments, a.id ≠ newId) :
      SafeReach (runStore s (appointmentsCreate body newId s))
  | appointmentsUpdateStep (s : Store) (id : Nat) (body : AppointmentUpdateBody)
      (h : SafeReach s) :
      SafeReach (runStore s (appointmentsUpdate id body s))
  | appointmentsDeleteStep (s : Store) (id : Nat) (h : SafeReach s) :
      SafeReach (runStore0 s (appointmentsDelete id s))
  | inventoryCreateStep (s : Store) (body : InventoryCreateBody) (newId : Nat)
      (h : SafeReach s) (hfresh : ∀ it ∈ s.inventory, it.id ≠ newId) :
      SafeReach (runStore s (inventoryCreate body newId s))
  | inventoryUpdateStep (s : Store) (id : Nat) (body : InventoryUpdateBody)
      (h : SafeReach s) :
      SafeReach (runStore s (inventoryUpdate id body s))
  | inventoryDeleteStep (s : Store) (id : Nat) (h : SafeReach s) :
      SafeReach (runStore0 s (inventoryDelete id s))

/-- Store states reachable without the appointment update and delete
endpoints; appointment rows are only ever added here, by POST
/api/appointments. -/
inductive QueueReach : Store → Prop
  | init (users : List User) : QueueReach (initStore users)
  | patientsCreateStep (s : Store) (mrn : String) (newId : Nat)
      (h : QueueReach s) (hfresh : ∀ p ∈ s.patients, p.id ≠ newId) :
      QueueReach (runStore s (patientsCreate mrn newId s))
  | patientsDeleteStep (s : Store) (id : Nat) (h : QueueReach s) :
      QueueReach (runStore0 s (patientsDelete id s))
  | bedsCreateStep (s : Store) (body : BedCreateBody) (newId : Nat)
      (h : QueueReach s) (hfresh : ∀ b ∈ s.beds, b.id ≠ newId) :
      QueueReach (runStore s (bedsCreate body newId s))
  | bedsUpdateStep (s : Store) (id : Nat) (body : BedUpdateBody) (now : Nat)
      (h : QueueReach s) :
      QueueReach (runStore s (bedsUpdate id body now s))
  | bedsDeleteStep (s : Store) (id : Nat) (h : QueueReach s) :
      QueueReach (runStore0 s (bedsDelete id s))
  | admissionsCreateStep (s : Store) (body : AdmissionCreateBody) (newId : Nat)
      (h : QueueReach s) (hfresh : ∀ a ∈ s.admissions, a.id ≠ newId) :
      QueueReach (runStore s (admissionsCreate body newId s))
  | admissionsUpdateStep (s : Store) (id : Nat) (body : AdmissionUpdateBody) (now : Nat)
      (h : QueueReach s) :
      QueueReach (runStore s (admissionsUpdate id body now s))
  | admissionsDeleteStep (s : Store) (id : Nat) (h : QueueReach s) :
      QueueReach (runStore0 s (admissionsDelete id s))
  | appointmentsCreateStep (s : Store) (body : AppointmentCreateBody) (newId : Nat)
      (h : QueueReach s) (hfresh : ∀ a ∈ s.appointments, a.id ≠ newId) :
      QueueReach (runStore s (appointmentsCreate body newId s))
  | inventoryCreateStep (s : Store) (body : InventoryCreateBody) (newId : Nat)
      (h : QueueReach s) (hfresh : ∀ it ∈ s.inventory, it.id ≠ newId) :
      QueueReach (runStore s (inventoryCreate body newId s))
  | inventoryUpdateStep (s : Store) (id : Nat) (body : InventoryUpdateBody)
      (h : QueueReach s) :
      QueueReach (runStore s (inventoryUpdate id body s))
  | inventoryDeleteStep (s : Store) (id : Nat) (h : QueueReach s) :
      QueueReach (runStore0 s (inventoryDelete id s))

/-! ## Frame lemmas: which tables each handler leaves untouched -/

theorem patientsCreate_frame (s : Store) (mrn : String) (i : Nat) :
    (runStore s (patientsCreate mrn i s)).beds = s.beds ∧
    (runStore s (patientsCreate mrn i s)).admissions = s.admissions ∧
    (runStore s (patientsCreate mrn i s)).appointments = s.appointments := by
  unfold patientsCreate
  try dsimp only
  repeat' split
  all_goals exact ⟨rfl, rfl, rfl⟩

theorem patientsDelete_frame (s : Store) (id : Nat) :
    (runStore0 s (patientsDelete id s)).admissions = s.admissions ∧
    (runStore0 s (patientsDelete id s)).appointments = s.appointments := by
  unfold patientsDelete
  try dsimp only
  repeat' split
  all_goals exact ⟨rfl, rfl⟩

theorem patientsDelete_beds_idStatus (s : Store) (id : Nat) :
    ((runStore0 s (patientsDelete id s)).beds).map (fun b => (b.id, b.status)) =
      s.beds.map (fun b => (b.id, b.status)) := by
  unfold patientsDelete
  try dsimp only
  repeat' split
  all_goals try rfl
  show (List.map _ (s.beds.map _)) = _
  rw [List.map_map]
  exact List.map_congr_left (fun b _ => by
    by_cases hb : b.patientId = some id <;> simp [hb, Function.comp])

theorem bedsCreate_frame (s : Store) (body : BedCreateBody) (i : Nat) :
    (runStore s (bedsCreate body i s)).admissions = s.admissions ∧
    (runStore s (bedsCreate body i s)).appointments = s.appointments := by
  unfold bedsCreate
  try dsimp only
  repeat' split
  all_goals exact ⟨rfl, rfl⟩

theorem bedsUpdate_frame (s : Store) (id : Nat) (body : BedUpdateBody) (now : Nat) :
    (runStore s (bedsUpdate id body now s)).admissions = s.admissions ∧
    (runStore s (bedsUpdate id body now s)).appointments = s.appointments := by
  unfold bedsUpdate
  try dsimp only
  repeat' split
  all_goals exact ⟨rfl, rfl⟩

theorem bedsDelete_frame (s : Store) (id : Nat) :
    (runStore0 s (bedsDelete id s)).admissions = s.admissions ∧
    (runStore0 s (bedsDelete id s)).appointments = s.appointments := by
  unfold bedsDelete
  try dsimp only
  repeat' split
  all_goals exact ⟨rfl, rfl⟩

theorem admissionsCreate_frame (s : Store) (body : AdmissionCreateBody) (i : Nat) :
    (runStore s (admissionsCreate body i s)).appointments = s.appointments := by
  unfold admissionsCreate
  try dsimp only
  repeat' split
  all_goals rfl

theorem admissionsUpdate_frame (s : Store) (id : Nat) (body : AdmissionUpdateBody)
    (now : Nat) :
    (runStore s (admissionsUpdate id body now s)).appointments = s.appointments := by
  unfold admissionsUpdate
  try dsimp only
  repeat' split
  all_goals rfl

theorem admissionsDelete_frame (s : Store) (id : Nat) :
    (runStore0 s (admissionsDelete id s)).appointments = s.appointments := by
  unfold admissionsDelete
  try dsimp only
  repeat' split
  all_goals rfl

theorem appointmentsCreate_frame (s : Store) (body : AppointmentCreateBody) (i : Nat) :
    (runStore s (appointmentsCreate body i s)).beds = s.beds ∧
    (runStore s (appointmentsCreate body i s)).admissions = s.admissions := by
  unfold appointmentsCreate
  try dsimp only
  repeat' split
  all_goals exact ⟨rfl, rfl⟩

theorem appointmentsUpdate_frame (s : Store) (id : Nat) (body : AppointmentUpdateBody) :
    (runStore s (appointmentsUpdate id body s)).beds = s.beds ∧
    (runStore s (appointmentsUpdate id body s)).admissions = s.admissions := by
  unfold appointmentsUpdate
  try dsimp only
  repeat' split
  all_goals exact ⟨rfl, rfl⟩

theorem appointmentsDelete_frame (s : Store) (id : Nat) :
    (runStore0 s (appointmentsDelete id s)).beds = s.beds ∧
    (runStore0 s (appointmentsDelete id s)).admissions = s.admissions := by
  unfold appointmentsDelete
  try dsimp only
  repeat' split
  all_goals exact ⟨rfl, rfl⟩

theorem inventoryCreate_frame (s : Store) (body : InventoryCreateBody) (i : Nat) :
    (runStore s (inventoryCreate body i s)).beds = s.beds ∧
    (runStore s (inventoryCreate body i s)).admissions = s.admissions ∧
    (runStore s (inventoryCreate body i s)).appointments = s.appointments := by
  unfold inventoryCreate
  exact ⟨rfl, rfl, rfl⟩

theorem inventoryUpdate_frame (s : Store) (id : Nat) (body : InventoryUpdateBody) :
    (runStore s (inventoryUpdate id body s)).beds = s.beds ∧
    (runStore s (inventoryUpdate id body s)).admissions = s.admissions ∧
    (runStore s (inventoryUpdate id body s)).appointments = s.appointments := by
  unfold inventoryUpdate
  try dsimp only
  repeat' split
  all_goals exact ⟨rfl, rfl, rfl⟩

theorem inventoryDelete_frame (s : Store) (id : Nat) :
    (runStore0 s (inventoryDelete id s)).beds = s.beds ∧
    (runStore0 s (inventoryDelete id s)).admissions = s.admissions ∧
    (runStore0 s (inventoryDelete id s)).appointments = s.appointments := by
  unfold inventoryDelete
  try dsimp only
  repeat' split
  all_goals exact ⟨rfl, rfl, rfl⟩

/-! ## Uniqueness of active admissions per patient (claim C4) -/

/-- No two admission rows (at distinct list positions) are both ACTIVE for
the same patient. -/
def ActiveDistinct (s : Store) : Prop :=
  s.admissions.Pairwise (fun a b =>
    a.status = .ACTIVE → b.status = .ACTIVE → a.patientId ≠ b.patientId)

/-- The admission primary keys are pairwise distinct (database PRIMARY KEY). -/
def AdmissionIdsNodup (s : Store) : Prop :=
  (s.admissions.map (fun a => a.id)).Nodup

theorem inv4_of_admissions_eq {s t : Store} (h : t.admissions = s.admissions)
    (hs : ActiveDistinct s ∧ AdmissionIdsNodup s) :
    ActiveDistinct t ∧ AdmissionIdsNodup t := by
  unfold ActiveDistinct AdmissionIdsNodup at *
  rw [h]
  exact hs

theorem inv4_admissionsCreate (s : Store) (body : AdmissionCreateBody) (newId : Nat)
    (hfresh : ∀ a ∈ s.admissions, a.id ≠ newId)
    (h1 : ActiveDistinct s) (h2 : AdmissionIdsNodup s) :
    ActiveDistinct (runStore s (admissionsCreate body newId s)) ∧
      AdmissionIdsNodup (runStore s (admissionsCreate body newId s)) := by
  unfold admissionsCreate
  try dsimp only
  repeat' split
  all_goals try exact ⟨h1, h2⟩
  rename_i hnoactive
  constructor
  · show List.Pairwise _ (s.admissions ++ [_])
    rw [List.pairwise_append]
    refine ⟨h1, by simp, ?_⟩
    intro a ha b hb
    simp only [List.mem_singleton] at hb
    subst hb
    intro hA _ hpe
    have hx := List.find?_eq_none.mp hnoactive a ha
    simp only [decide_eq_true_eq] at hx
    exact hx ⟨hpe, hA⟩
  · show ((s.admissions ++ [_]).map _).Nodup
    rw [List.map_append, List.nodup_append]
    refine ⟨h2, by simp, ?_⟩
    intro x hx
    simp only [List.mem_map] at hx
    obtain ⟨a, ha, rfl⟩ := hx
    simpa using (hfresh a ha)

theorem inv4_admissionsUpdate (s : Store) (id : Nat) (body : AdmissionUpdateBody)
    (now : Nat) (h1 : ActiveDistinct s) (h2 : AdmissionIdsNodup s) :
    ActiveDistinct (runStore s (admissionsUpdate id body now s)) ∧
      AdmissionIdsNodup (runStore s (admissionsUpdate id body now s)) := by
  unfold admissionsUpdate
  try dsimp only
  cases hfind : s.admissions.find? (fun a => decide (a.id = id)) with
  | none => exact ⟨h1, h2⟩
  | some adm =>
    have hid : adm.id = id := by simpa using List.find?_some hfind
    have hmem : adm ∈ s.admissions := List.mem_of_find?_eq_some hfind
    have huniq : ∀ x ∈ s.admissions, x.id = id → x = adm := by
      intro x hx hxid
      exact List.inj_on_of_nodup_map h2 hx hmem (by rw [hxid, hid])
    cases hst : body.status with
    | some r =>
      try dsimp only
      by_cases hcond : r ≠ AdmissionStatus.ACTIVE ∧ adm.status = AdmissionStatus.ACTIVE
      · rw [if_pos hcond]
        constructor
        · show List.Pairwise _ (s.admissions.map _)
          rw [List.pairwise_map]
          refine h1.imp ?_
          intro a b hab
          by_cases ha : a.id = id
          · simp only [ha, ite_true]
            intro hA
            exact absurd hA hcond.1
          · by_cases hb : b.id = id
            · simp only [ha, hb, ite_true, ite_false]
              intro _ hB
              exact absurd hB hcond.1
            · simp only [ha, hb, ite_false]
              exact hab
        · show ((s.admissions.map _).map _).Nodup
          rw [List.map_map]
          have hcomp : ∀ a ∈ s.admissions,
              ((fun a : Admission => a.id) ∘ fun a =>
                if a.id = id then
                  { adm with
                    status := r
                    dischargeDate := some (body.dischargeDate.getD now)
                    notes := jsOrOpt body.notes adm.notes }
                else a) a = (fun a : Admission => a.id) a := by
            intro a _
            by_cases ha : a.id = id <;> simp [ha, hid]
          rw [List.map_congr_left hcomp]
          exact h2
      · rw [if_neg hcond]
        constructor
        · show List.Pairwise _ (s.admissions.map _)
          rw [List.pairwise_map]
          refine h1.imp_of_mem ?_
          intro a b ha hb hab
          by_cases hia : a.id = id
          · have ea : a = adm := huniq a ha hia
            by_cases hib : b.id = id
            · have eb : b = adm := huniq b hb hib
              subst ea
              subst eb
              simp only [hia, ite_true]
              intro hA hB
              exact absurd rfl (hab hA hB)
            · subst ea
              simp only [hia, hib, ite_true, ite_false]
              intro hA hB
              exact hab hA hB
          · by_cases hib : b.id = id
            · have eb : b = adm := huniq b hb hib
              subst eb
              simp only [hia, hib, ite_true, ite_false]
              intro hA hB
              exact hab hA hB
            · simp only [hia, hib, ite_false]
              exact hab
        · show ((s.admissions.map _).map _).Nodup
          rw [List.map_map]
          have hcomp : ∀ a ∈ s.admissions,
              ((fun a : Admission => a.id) ∘ fun a =>
                if a.id = id then
                  { adm with
                    diagnosis := jsOrOpt body.diagnosis adm.diagnosis
                    notes := jsOrOpt body.notes adm.notes }
                else a) a = (fun a : Admission => a.id) a := by
            intro a _
            by_cases ha : a.id = id <;> simp [ha, hid]
          rw [List.map_congr_left hcomp]
          exact h2
    | none =>
      try dsimp only
      constructor
      · show List.Pairwise _ (s.admissions.map _)
        rw [List.pairwise_map]
        refine h1.imp_of_mem ?_
        intro a b ha hb hab
        by_cases hia : a.id = id
        · have ea : a = adm := huniq a ha hia
          by_cases hib : b.id = id
          · have eb : b = adm := huniq b hb hib
            subst ea
            subst eb
            simp only [hia, ite_true]
            intro hA hB
            exact absurd rfl (hab hA hB)
          · subst ea
            simp only [hia, hib, ite_true, ite_false]
            intro hA hB
            exact hab hA hB
        · by_cases hib : b.id = id
          · have eb : b = adm := huniq b hb hib
            subst eb
            simp only [hia, hib, ite_true, ite_false]
            intro hA hB
            exact hab hA hB
          · simp only [hia, hib, ite_false]
            exact hab
      · show ((s.admissions.map _).map _).Nodup
        rw [List.map_map]
        have hcomp : ∀ a ∈ s.admissions,
            ((fun a : Admission => a.id) ∘ fun a =>
              if a.id = id then
                { adm with
                  diagnosis := jsOrOpt body.diagnosis adm.diagnosis
                  notes := jsOrOpt body.notes adm.notes }
              else a) a = (fun a : Admission => a.id) a := by
          intro a _
          by_cases ha : a.id = id <;> simp [ha, hid]
        rw [List.map_congr_left hcomp]
        exact h2


theorem inv4_admissionsDelete (s : Store) (id : Nat)
    (h1 : ActiveDistinct s) (h2 : AdmissionIdsNodup s) :
    ActiveDistinct (runStore0 s (admissionsDelete id s)) ∧
      AdmissionIdsNodup (runStore0 s (admissionsDelete id s)) := by
  unfold admissionsDelete
  try dsimp only
  repeat' split
  all_goals try exact ⟨h1, h2⟩
  all_goals
    refine ⟨List.Pairwise.sublist (List.filter_sublist s.admissions) h1,
      List.Nodup.sublist ?_ h2⟩
  all_goals exact (List.filter_sublist s.admissions).map _

/-- Every reachable store keeps active admissions distinct per patient and
admission primary keys unique. -/
theorem fullReach_inv4 (s : Store) (h : FullReach s) :
    ActiveDistinct s ∧ AdmissionIdsNodup s := by
  induction h with
  | init users => exact ⟨List.Pairwise.nil, List.nodup_nil⟩
  | patientsCreateStep s mrn newId h hfresh ih =>
      exact inv4_of_admissions_eq (patientsCreate_frame s mrn newId).2.1 ih
  | patientsDeleteStep s id h ih =>
      exact inv4_of_admissions_eq (patientsDelete_frame s id).1 ih
  | bedsCreateStep s body newId h hfresh ih =>
      exact inv4_of_admissions_eq (bedsCreate_frame s body newId).1 ih
  | bedsUpdateStep s id body now h ih =>
      exact inv4_of_admissions_eq (bedsUpdate_frame s id body now).1 ih
  | bedsDeleteStep s id h ih =>
      exact inv4_of_admissions_eq (bedsDelete_frame s id).1 ih
  | admissionsCreateStep s body newId h hfresh ih =>
      exact inv4_admissionsCreate s body newId hfresh ih.1 ih.2
  | admissionsUpdateStep s id body now h ih =>
      exact inv4_admissionsUpdate s id body now ih.1 ih.2
  | admissionsDeleteStep s id h ih =>
      exact inv4_admissionsDelete s id ih.1 ih.2
  | appointmentsCreateStep s body newId h hfresh ih =>
      exact inv4_of_admissions_eq (appointmentsCreate_frame s body newId).2 ih
  | appointmentsUpdateStep s id body h ih =>
      exact inv4_of_admissions_eq (appointmentsUpdate_frame s id body).2 ih
  | appointmentsDeleteStep s id h ih =>
      exact inv4_of_admissions_eq (appointmentsDelete_frame s id).2 ih
  | inventoryCreateStep s body newId h hfresh ih =>
      exact inv4_of_admissions_eq (inventoryCreate_frame s body newId).2.1 ih
  | inventoryUpdateStep s id body h ih =>
      exact inv4_of_admissions_eq (inventoryUpdate_frame s id body).2.1 ih
  | inventoryDeleteStep s id h ih =>
      exact inv4_of_admissions_eq (inventoryDelete_frame s id).2.1 ih

/-! ## Bed/admission pairing (claim C1) -/

/-- Number of ACTIVE admission rows referencing the bed id `bid`. -/
def countActiveFor (admissions : List Admission) (bid : Nat) : Nat :=
  (admissions.filter (fun a => decide (a.status = .ACTIVE ∧ a.bedId = bid))).length

/-- The pairing stated by the specification: a bed is OCCUPIED exactly when
exactly one ACTIVE admission references it. -/
def BedAdmPairing (s : Store) : Prop :=
  ∀ bed ∈ s.beds, (bed.status = .OCCUPIED ↔ countActiveFor s.admissions bed.id = 1)

instance (s : Store) : Decidable (BedAdmPairing s) := by
  unfold BedAdmPairing
  infer_instance

/-- Per-bed active-admission count written as a function of the bed status. -/
def BedCountInv (s : Store) : Prop :=
  ∀ bed ∈ s.beds,
    countActiveFor s.admissions bed.id = (if bed.status = .OCCUPIED then 1 else 0)

/-- Every ACTIVE admission references a live bed row. -/
def ActiveAdmHasBed (s : Store) : Prop :=
  ∀ a ∈ s.admissions, a.status = .ACTIVE → ∃ b ∈ s.beds, b.id = a.bedId

/-- Inductive invariant for the bed/admission pairing. -/
def StoreInvC1 (s : Store) : Prop :=
  BedCountInv s ∧ ActiveAdmHasBed s ∧ AdmissionIdsNodup s

theorem bedAdmPairing_of_inv {s : Store} (h : StoreInvC1 s) : BedAdmPairing s := by
  intro bed hbed
  have hc := h.1 bed hbed
  constructor
  · intro ho
    rw [hc, if_pos ho]
  · intro hcount
    by_contra ho
    rw [hc, if_neg ho] at hcount
    exact absurd hcount.symm (by simp)

theorem countActiveFor_append (l1 l2 : List Admission) (bid : Nat) :
    countActiveFor (l1 ++ l2) bid = countActiveFor l1 bid + countActiveFor l2 bid := by
  simp [countActiveFor, List.filter_append]

theorem countActiveFor_cons (a : Admission) (l : List Admission) (bid : Nat) :
    countActiveFor (a :: l) bid =
      (if a.status = .ACTIVE ∧ a.bedId = bid then 1 else 0) + countActiveFor l bid := by
  by_cases h : a.status = .ACTIVE ∧ a.bedId = bid <;>
    simp [countActiveFor, List.filter_cons, h, Nat.add_comm]

/-- Splitting a list of admissions around a member whose primary key is
unique in the list. -/
theorem uniqueIdSplit {l : List Admission} {adm : Admission}
    (h2 : (l.map (fun a => a.id)).Nodup) (hmem : adm ∈ l) :
    ∃ l1 l2, l = l1 ++ adm :: l2 ∧
      (∀ x ∈ l1, x.id ≠ adm.id) ∧ (∀ x ∈ l2, x.id ≠ adm.id) := by
  obtain ⟨l1, l2, rfl⟩ := List.append_of_mem hmem
  refine ⟨l1, l2, rfl, ?_, ?_⟩
  · intro x hx hxid
    rw [List.map_append, List.map_cons, List.nodup_append] at h2
    exact h2.2.2 (List.mem_map_of_mem _ hx) (by simp [hxid])
  · intro x hx hxid
    rw [List.map_append, List.map_cons, List.nodup_append] at h2
    have := h2.2.1
    rw [List.nodup_cons] at this
    exact this.1 (by rw [← hxid]; exact List.mem_map_of_mem _ hx)

theorem invC1_of_eq {s t : Store} (hb : t.beds = s.beds)
    (ha : t.admissions = s.admissions) (h : StoreInvC1 s) : StoreInvC1 t := by
  obtain ⟨hc, hhas, hnd⟩ := h
  refine ⟨?_, ?_, ?_⟩
  · intro bed hbed
    rw [ha]
    exact hc bed (hb ▸ hbed)
  · intro a haa hA
    rw [hb]
    exact hhas a (ha ▸ haa) hA
  · unfold AdmissionIdsNodup
    rw [ha]
    exact hnd

theorem invC1_of_idStatus_eq {s t : Store}
    (hb : t.beds.map (fun b => (b.id, b.status)) = s.beds.map (fun b => (b.id, b.status)))
    (ha : t.admissions = s.admissions) (h : StoreInvC1 s) : StoreInvC1 t := by
  obtain ⟨hc, hhas, hnd⟩ := h
  refine ⟨?_, ?_, ?_⟩
  · intro bed hbed
    have hpair : (bed.id, bed.status) ∈ s.beds.map (fun b => (b.id, b.status)) := by
      rw [← hb]
      exact List.mem_map_of_mem _ hbed
    obtain ⟨b0, hb0, heq⟩ := List.mem_map.mp hpair
    have h1 : b0.id = bed.id := congrArg Prod.fst heq
    have h2 : b0.status = bed.status := congrArg Prod.snd heq
    rw [ha, ← h1, ← h2]
    exact hc b0 hb0
  · intro a haa hA
    obtain ⟨b, hbmem, hbid⟩ := hhas a (ha ▸ haa) hA
    have hpair : (b.id, b.status) ∈ t.beds.map (fun b => (b.id, b.status)) := by
      rw [hb]
      exact List.mem_map_of_mem _ hbmem
    obtain ⟨b', hb', heq⟩ := List.mem_map.mp hpair
    have h1 : b'.id = b.id := congrArg Prod.fst heq
    exact ⟨b', hb', by rw [h1, hbid]⟩
  · unfold AdmissionIdsNodup
    rw [ha]
    exact hnd

theorem invC1_admissionsCreate (s : Store) (body : AdmissionCreateBody) (newId : Nat)
    (hfresh : ∀ a ∈ s.admissions, a.id ≠ newId) (h : StoreInvC1 s) :
    StoreInvC1 (runStore s (admissionsCreate body newId s)) := by
  obtain ⟨hc, hhas, hnd⟩ := h
  unfold admissionsCreate
  try dsimp only
  cases hp : s.patients.find? (fun p => decide (p.id = body.patientId)) with
  | none => exact ⟨hc, hhas, hnd⟩
  | some p =>
  try dsimp only
  cases hbed : s.beds.find? (fun b => decide (b.id = body.bedId)) with
  | none => exact ⟨hc, hhas, hnd⟩
  | some bed =>
  try dsimp only
  by_cases hav : bed.status ≠ BedStatus.AVAILABLE
  · rw [if_pos hav]
    exact ⟨hc, hhas, hnd⟩
  · rw [if_neg hav]
    cases hdoc : s.users.find? (fun u => decide (u.id = body.doctorId)) with
    | none => exact ⟨hc, hhas, hnd⟩
    | some doctor =>
    try dsimp only
    by_cases hrole : doctor.role ≠ Role.DOCTOR
    · rw [if_pos hrole]
      exact ⟨hc, hhas, hnd⟩
    · rw [if_neg hrole]
      cases hnoact : s.admissions.find?
          (fun a => decide (a.patientId = body.patientId ∧ a.status = .ACTIVE)) with
      | some a0 => exact ⟨hc, hhas, hnd⟩
      | none =>
      try dsimp only
      try dsimp only [runStore]
      have hbedmem : bed ∈ s.beds := List.mem_of_find?_eq_some hbed
      have hbedid : bed.id = body.bedId := by simpa using List.find?_some hbed
      rw [not_not] at hav
      have hzero : countActiveFor s.admissions body.bedId = 0 := by
        have hx := hc bed hbedmem
        rw [hbedid] at hx
        rw [hx, if_neg]
        rw [hav]
        simp
      refine ⟨?_, ?_, ?_⟩
      · intro b' hb'
        obtain ⟨b, hbmem0, rfl⟩ := List.mem_map.mp hb'
        by_cases hbid : b.id = body.bedId
        · rw [if_pos hbid]
          show countActiveFor (s.admissions ++ [_]) _ = _
          rw [countActiveFor_append, countActiveFor_cons]
          simp only [hbid, hzero]
          simp [countActiveFor]
        · rw [if_neg hbid]
          show countActiveFor (s.admissions ++ [_]) _ = _
          rw [countActiveFor_append, countActiveFor_cons]
          have hne : ¬ (AdmissionStatus.ACTIVE = AdmissionStatus.ACTIVE ∧
              body.bedId = b.id) := by
            intro hcontra
            exact hbid hcontra.2.symm
          rw [if_neg hne]
          have := hc b hbmem0
          simpa [countActiveFor] using this
      · intro a haa hA
        rw [List.mem_append] at haa
        rcases haa with haa | haa
        · obtain ⟨b, hbm, hbi⟩ := hhas a haa hA
          by_cases hbid : b.id = body.bedId
          · refine ⟨_, List.mem_map_of_mem _ hbm, ?_⟩
            rw [if_pos hbid]
            show b.id = a.bedId
            exact hbi
          · exact ⟨_, List.mem_map_of_mem _ hbm, by rw [if_neg hbid]; exact hbi⟩
        · simp only [List.mem_singleton] at haa
          subst haa
          refine ⟨_, List.mem_map_of_mem _ hbedmem, ?_⟩
          rw [if_pos hbedid]
          show bed.id = body.bedId
          exact hbedid
      · show ((s.admissions ++ [_]).map _).Nodup
        rw [List.map_append, List.nodup_append]
        refine ⟨hnd, by simp, ?_⟩
        intro x hx
        simp only [List.mem_map] at hx
        obtain ⟨a, ha, rfl⟩ := hx
        simpa using (hfresh a ha)

theorem countActiveFor_map_eq {l : List Admission} {g : Admission → Admission}
    (hg : ∀ a ∈ l, (g a).status = a.status ∧ (g a).bedId = a.bedId) (bid : Nat) :
    countActiveFor (l.map g) bid = countActiveFor l bid := by
  induction l with
  | nil => rfl
  | cons a l ih =>
    rw [List.map_cons, countActiveFor_cons, countActiveFor_cons,
      ih (fun x hx => hg x (List.mem_cons_of_mem _ hx))]
    have ha := hg a (List.mem_cons_self _ _)
    rw [ha.1, ha.2]

theorem mapIds_eq {l : List Admission} {g : Admission → Admission}
    (hg : ∀ a ∈ l, (g a).id = a.id) :
    (l.map g).map (fun a => a.id) = l.map (fun a => a.id) := by
  rw [List.map_map]
  exact List.map_congr_left (fun a ha => hg a ha)

/-- Replacing the unique ACTIVE row with primary key `adm.id` by a
non-ACTIVE row removes exactly its contribution from the per-bed count. -/
theorem countActiveFor_update_unique {l : List Admission} {adm upd : Admission}
    (hnd : (l.map (fun a => a.id)).Nodup) (hmem : adm ∈ l)
    (hupd : upd.status ≠ .ACTIVE) (hadm : adm.status = .ACTIVE) (bid : Nat) :
    countActiveFor (l.map (fun a => if a.id = adm.id then upd else a)) bid +
      (if adm.bedId = bid then 1 else 0) = countActiveFor l bid := by
  obtain ⟨l1, l2, rfl, hne1, hne2⟩ := uniqueIdSplit hnd hmem
  rw [List.map_append, List.map_cons,
    List.map_congr_left (fun x hx => if_neg (hne1 x hx)),
    List.map_congr_left (fun x hx => if_neg (hne2 x hx)),
    List.map_id', List.map_id', if_pos rfl,
    countActiveFor_append, countActiveFor_append, countActiveFor_cons,
    countActiveFor_cons,
    if_neg (fun hcontra => hupd hcontra.1)]
  by_cases hb : adm.bedId = bid
  · rw [if_pos (And.intro hadm hb), if_pos hb]
    omega
  · rw [if_neg hb,
      if_neg (fun hcontra : adm.status = AdmissionStatus.ACTIVE ∧ adm.bedId = bid =>
        hb hcontra.2)]
    omega

/-- Deleting the unique ACTIVE row with primary key `adm.id` removes exactly
its contribution from the per-bed count. -/
theorem countActiveFor_erase_unique {l : List Admission} {adm : Admission}
    (hnd : (l.map (fun a => a.id)).Nodup) (hmem : adm ∈ l)
    (hadm : adm.status = .ACTIVE) (bid : Nat) :
    countActiveFor (l.filter (fun a => decide (a.id ≠ adm.id))) bid +
      (if adm.bedId = bid then 1 else 0) = countActiveFor l bid := by
  obtain ⟨l1, l2, rfl, hne1, hne2⟩ := uniqueIdSplit hnd hmem
  rw [List.filter_append, List.filter_cons,
    List.filter_eq_self.mpr (fun x hx => by simpa using hne1 x hx),
    List.filter_eq_self.mpr (fun x hx => by simpa using hne2 x hx),
    if_neg (by simp),
    countActiveFor_append, countActiveFor_append, countActiveFor_cons]
  by_cases hb : adm.bedId = bid
  · rw [if_pos (And.intro hadm hb), if_pos hb]
    omega
  · rw [if_neg hb,
      if_neg (fun hcontra : adm.status = AdmissionStatus.ACTIVE ∧ adm.bedId = bid =>
        hb hcontra.2)]
    omega

/-- Deleting a non-ACTIVE row leaves every per-bed count unchanged. -/
theorem countActiveFor_erase_inactive {l : List Admission} {adm : Admission}
    (hnd : (l.map (fun a => a.id)).Nodup) (hmem : adm ∈ l)
    (hadm : ¬ adm.status = .ACTIVE) (bid : Nat) :
    countActiveFor (l.filter (fun a => decide (a.id ≠ adm.id))) bid =
      countActiveFor l bid := by
  obtain ⟨l1, l2, rfl, hne1, hne2⟩ := uniqueIdSplit hnd hmem
  rw [List.filter_append, List.filter_cons,
    List.filter_eq_self.mpr (fun x hx => by simpa using hne1 x hx),
    List.filter_eq_self.mpr (fun x hx => by simpa using hne2 x hx),
    if_neg (by simp),
    countActiveFor_append, countActiveFor_append, countActiveFor_cons,
    if_neg (fun hcontra => hadm hcontra.1)]
  omega

theorem invC1_admissionsUpdate (s : Store) (id : Nat) (body : AdmissionUpdateBody)
    (now : Nat) (h : StoreInvC1 s) :
    StoreInvC1 (runStore s (admissionsUpdate id body now s)) := by
  obtain ⟨hc, hhas, hnd⟩ := h
  unfold admissionsUpdate
  try dsimp only
  cases hfind : s.admissions.find? (fun a => decide (a.id = id)) with
  | none => exact ⟨hc, hhas, hnd⟩
  | some adm =>
  try dsimp only
  have hid : adm.id = id := by simpa using List.find?_some hfind
  have hmem : adm ∈ s.admissions := List.mem_of_find?_eq_some hfind
  subst hid
  have huniq : ∀ x ∈ s.admissions, x.id = adm.id → x = adm := by
    intro x hx hxid
    exact List.inj_on_of_nodup_map hnd hx hmem hxid
  have hsimple : ∀ d n : Option String,
      StoreInvC1 { s with
        admissions := s.admissions.map (fun a =>
          if a.id = adm.id then
            { adm with
              diagnosis := jsOrOpt d adm.diagnosis
              notes := jsOrOpt n adm.notes }
          else a) } := by
    intro d n
    have hg : ∀ a ∈ s.admissions,
        ((if a.id = adm.id then
            { adm with
              diagnosis := jsOrOpt d adm.diagnosis
              notes := jsOrOpt n adm.notes }
          else a)).status = a.status ∧
        ((if a.id = adm.id then
            { adm with
              diagnosis := jsOrOpt d adm.diagnosis
              notes := jsOrOpt n adm.notes }
          else a)).bedId = a.bedId ∧
        ((if a.id = adm.id then
            { adm with
              diagnosis := jsOrOpt d adm.diagnosis
              notes := jsOrOpt n adm.notes }
          else a)).id = a.id := by
      intro a ha
      by_cases hia : a.id = adm.id
      · have hea : a = adm := huniq a ha hia
        subst hea
        simp
      · simp [hia]
    refine ⟨?_, ?_, ?_⟩
    · intro b hb
      show countActiveFor (s.admissions.map _) b.id = _
      rw [countActiveFor_map_eq (fun a ha => ⟨(hg a ha).1, (hg a ha).2.1⟩)]
      exact hc b hb
    · intro a' ha' hA'
      obtain ⟨a, ha, rfl⟩ := List.mem_map.mp ha'
      have hga := hg a ha
      obtain ⟨b, hbm, hbi⟩ := hhas a ha (by rw [← hga.1]; exact hA')
      exact ⟨b, hbm, by rw [hga.2.1]; exact hbi⟩
    · show ((s.admissions.map _).map _).Nodup
      rw [mapIds_eq (fun a ha => (hg a ha).2.2)]
      exact hnd
  cases hst : body.status with
  | none => exact hsimple body.diagnosis body.notes
  | some r =>
    try dsimp only
    by_cases hcond : r ≠ AdmissionStatus.ACTIVE ∧ adm.status = AdmissionStatus.ACTIVE
    · rw [if_pos hcond]
      try dsimp only [runStore]
      have hcount := fun bid => @countActiveFor_update_unique s.admissions adm
        { adm with
          status := r
          dischargeDate := some (body.dischargeDate.getD now)
          notes := jsOrOpt body.notes adm.notes } hnd hmem hcond.1 hcond.2 bid
      refine ⟨?_, ?_, ?_⟩
      · intro b' hb'
        obtain ⟨b, hbm, rfl⟩ := List.mem_map.mp hb'
        by_cases hbid : b.id = adm.bedId
        · rw [if_pos hbid]
          have h1 := hcount b.id
          have h2 := hc b hbm
          show countActiveFor (s.admissions.map _) b.id = _
          simp only [if_neg (by simp : ¬ BedStatus.AVAILABLE = BedStatus.OCCUPIED)]
          rw [if_pos hbid.symm] at h1
          by_cases hocc : b.status = .OCCUPIED
          · rw [if_pos hocc] at h2
            omega
          · rw [if_neg hocc] at h2
            omega
        · rw [if_neg hbid]
          have h1 := hcount b.id
          rw [if_neg (fun hcontra => hbid hcontra.symm)] at h1
          have h2 := hc b hbm
          show countActiveFor (s.admissions.map _) b.id = _
          omega
      · intro a' ha' hA'
        obtain ⟨a, ha, rfl⟩ := List.mem_map.mp ha'
        by_cases hia : a.id = adm.id
        · rw [if_pos hia] at hA' ⊢
          exact absurd hA' hcond.1
        · rw [if_neg hia] at hA' ⊢
          obtain ⟨b, hbm, hbi⟩ := hhas a ha hA'
          refine ⟨_, List.mem_map_of_mem _ hbm, ?_⟩
          by_cases hbid : b.id = adm.bedId
          · rw [if_pos hbid]
            exact hbi
          · rw [if_neg hbid]
            exact hbi
      · show ((s.admissions.map _).map _).Nodup
        rw [mapIds_eq ?_]
        · exact hnd
        · intro a ha
          by_cases hia : a.id = adm.id
          · rw [if_pos hia]
            exact hia.symm
          · rw [if_neg hia]
    · rw [if_neg hcond]
      exact hsimple body.diagnosis body.notes

theorem invC1_admissionsDelete (s : Store) (id : Nat) (h : StoreInvC1 s) :
    StoreInvC1 (runStore0 s (admissionsDelete id s)) := by
  obtain ⟨hc, hhas, hnd⟩ := h
  unfold admissionsDelete
  try dsimp only
  cases hfind : s.admissions.find? (fun a => decide (a.id = id)) with
  | none => exact ⟨hc, hhas, hnd⟩
  | some adm =>
  try dsimp only
  have hid : adm.id = id := by simpa using List.find?_some hfind
  have hmem : adm ∈ s.admissions := List.mem_of_find?_eq_some hfind
  subst hid
  by_cases hA : adm.status = AdmissionStatus.ACTIVE
  · rw [if_pos hA]
    try dsimp only [runStore0]
    refine ⟨?_, ?_, ?_⟩
    · intro b' hb'
      obtain ⟨b, hbm, rfl⟩ := List.mem_map.mp hb'
      have h2 := hc b hbm
      by_cases hbid : b.id = adm.bedId
      · rw [if_pos hbid]
        have h1 := countActiveFor_erase_unique hnd hmem hA b.id
        rw [if_pos hbid.symm] at h1
        show countActiveFor (s.admissions.filter _) b.id = _
        simp only [if_neg (by simp : ¬ BedStatus.AVAILABLE = BedStatus.OCCUPIED)]
        by_cases hocc : b.status = .OCCUPIED
        · rw [if_pos hocc] at h2
          omega
        · rw [if_neg hocc] at h2
          omega
      · rw [if_neg hbid]
        have h1 := countActiveFor_erase_unique hnd hmem hA b.id
        rw [if_neg (fun hcontra => hbid hcontra.symm)] at h1
        show countActiveFor (s.admissions.filter _) b.id = _
        omega
    · intro a' ha' hA'
      have ha'mem : a' ∈ s.admissions :=
        List.mem_of_mem_filter ha'
      obtain ⟨b, hbm, hbi⟩ := hhas a' ha'mem hA'
      refine ⟨_, List.mem_map_of_mem _ hbm, ?_⟩
      by_cases hbid : b.id = adm.bedId
      · rw [if_pos hbid]
        exact hbi
      · rw [if_neg hbid]
        exact hbi
    · show ((s.admissions.filter _).map _).Nodup
      exact List.Nodup.sublist ((List.filter_sublist s.admissions).map _) hnd
  · rw [if_neg hA]
    try dsimp only [runStore0]
    refine ⟨?_, ?_, ?_⟩
    · intro b hb
      show countActiveFor (s.admissions.filter _) b.id = _
      rw [countActiveFor_erase_inactive hnd hmem hA]
      exact hc b hb
    · intro a' ha' hA'
      exact hhas a' (List.mem_of_mem_filter ha') hA'
    · show ((s.admissions.filter _).map _).Nodup
      exact List.Nodup.sublist ((List.filter_sublist s.admissions).map _) hnd

theorem invC1_bedsCreate (s : Store) (body : BedCreateBody) (newId : Nat)
    (hfresh : ∀ b ∈ s.beds, b.id ≠ newId) (hstatus : body.status ≠ some .OCCUPIED)
    (h : StoreInvC1 s) :
    StoreInvC1 (runStore s (bedsCreate body newId s)) := by
  obtain ⟨hc, hhas, hnd⟩ := h
  unfold bedsCreate
  try dsimp only
  cases hdup : s.beds.find? (fun b => decide (b.bedNumber = body.bedNumber)) with
  | some b0 => exact ⟨hc, hhas, hnd⟩
  | none =>
  try dsimp only [runStore]
  have hnew : (body.status.getD BedStatus.AVAILABLE) ≠ BedStatus.OCCUPIED := by
    cases hbs : body.status with
    | none => simp
    | some st =>
      simp only [Option.getD_some]
      intro hcontra
      exact hstatus (by rw [hbs, hcontra])
  refine ⟨?_, ?_, ?_⟩
  · intro b hb
    rw [List.mem_append] at hb
    rcases hb with hb | hb
    · exact hc b hb
    · simp only [List.mem_singleton] at hb
      subst hb
      simp only
      rw [if_neg hnew]
      show countActiveFor s.admissions newId = 0
      by_contra hne
      have hpos : 0 < (s.admissions.filter
          (fun a => decide (a.status = .ACTIVE ∧ a.bedId = newId))).length :=
        Nat.pos_of_ne_zero hne
      obtain ⟨a, hafil⟩ := List.exists_mem_of_length_pos hpos
      have hamem := List.mem_of_mem_filter hafil
      have hap := List.of_mem_filter hafil
      simp only [decide_eq_true_eq] at hap
      obtain ⟨b, hbm, hbid⟩ := hhas a hamem hap.1
      exact hfresh b hbm (by rw [hbid, hap.2])
  · intro a ha hA
    obtain ⟨b, hbm, hbid⟩ := hhas a ha hA
    exact ⟨b, List.mem_append_left _ hbm, hbid⟩
  · exact hnd

theorem invC1_bedsDelete (s : Store) (id : Nat) (h : StoreInvC1 s) :
    StoreInvC1 (runStore0 s (bedsDelete id s)) := by
  obtain ⟨hc, hhas, hnd⟩ := h
  unfold bedsDelete
  try dsimp only
  cases hfind : s.beds.find? (fun b => decide (b.id = id)) with
  | none => exact ⟨hc, hhas, hnd⟩
  | some bed =>
  try dsimp only
  by_cases hocc : bed.status = BedStatus.OCCUPIED
  · rw [if_pos hocc]
    exact ⟨hc, hhas, hnd⟩
  · rw [if_neg hocc]
    by_cases hact : (s.admissions.filter
        (fun a => decide (a.bedId = id ∧ a.status = .ACTIVE))).length > 0
    · rw [if_pos hact]
      exact ⟨hc, hhas, hnd⟩
    · rw [if_neg hact]
      by_cases hany : s.admissions.any (fun a => decide (a.bedId = id)) = true
      · rw [if_pos hany]
        exact ⟨hc, hhas, hnd⟩
      · rw [if_neg hany]
        try dsimp only [runStore0]
        refine ⟨?_, ?_, ?_⟩
        · intro b hb
          exact hc b (List.mem_of_mem_filter hb)
        · intro a ha hA
          obtain ⟨b, hbm, hbid⟩ := hhas a ha hA
          refine ⟨b, List.mem_filter.mpr ⟨hbm, ?_⟩, hbid⟩
          simp only [decide_eq_true_eq]
          intro hbid2
          exact hany (List.any_eq_true.mpr ⟨a, ha, by simp [← hbid, hbid2]⟩)
        · exact hnd

/-- States reachable without the direct bed-status endpoints satisfy the
inductive bed/admission invariant. -/
theorem safeReach_invC1 (s : Store) (h : SafeReach s) : StoreInvC1 s := by
  induction h with
  | init users =>
      exact ⟨fun bed hbed => absurd hbed (List.not_mem_nil _),
        fun a ha => absurd ha (List.not_mem_nil _), List.nodup_nil⟩
  | patientsCreateStep s mrn newId h hfresh ih =>
      exact invC1_of_eq (patientsCreate_frame s mrn newId).1
        (patientsCreate_frame s mrn newId).2.1 ih
  | patientsDeleteStep s id h ih =>
      exact invC1_of_idStatus_eq (patientsDelete_beds_idStatus s id)
        (patientsDelete_frame s id).1 ih
  | bedsCreateStep s body newId h hfresh hstatus ih =>
      exact invC1_bedsCreate s body newId hfresh hstatus ih
  | bedsDeleteStep s id h ih =>
      exact invC1_bedsDelete s id ih
  | admissionsCreateStep s body newId h hfresh ih =>
      exact invC1_admissionsCreate s body newId hfresh ih
  | admissionsUpdateStep s id body now h ih =>
      exact invC1_admissionsUpdate s id body now ih
  | admissionsDeleteStep s id h ih =>
      exact invC1_admissionsDelete s id ih
  | appointmentsCreateStep s body newId h hfresh ih =>
      exact invC1_of_eq (appointmentsCreate_frame s body newId).1
        (appointmentsCreate_frame s body newId).2 ih
  | appointmentsUpdateStep s id body h ih =>
      exact invC1_of_eq (appointmentsUpdate_frame s id body).1
        (appointmentsUpdate_frame s id body).2 ih
  | appointmentsDeleteStep s id h ih =>
      exact invC1_of_eq (appointmentsDelete_frame s id).1
        (appointmentsDelete_frame s id).2 ih
  | inventoryCreateStep s body newId h hfresh ih =>
      exact invC1_of_eq (inventoryCreate_frame s body newId).1
        (inventoryCreate_frame s body newId).2.1 ih
  | inventoryUpdateStep s id body h ih =>
      exact invC1_of_eq (inventoryUpdate_frame s id body).1
        (inventoryUpdate_frame s id body).2.1 ih
  | inventoryDeleteStep s id h ih =>
      exact invC1_of_eq (inventoryDelete_frame s id).1
        (inventoryDelete_frame s id).2.1 ih

/-! ## Concrete demonstration stores (reachable by explicit request
sequences; used to instantiate the reachability theorems) -/

/-- A provisioned doctor account. -/
def demoDoctor : User := { id := 1, role := .DOCTOR }

/-- Initial store holding only the doctor account. -/
def demoStore0 : Store := initStore [demoDoctor]

/-- After POST /api/patients. -/
def demoStore1 : Store := runStore demoStore0 (patientsCreate ("MRN0001") 10 demoStore0)

/-- Body of a bed creation with defaulted AVAILABLE status. -/
def demoBedBody : BedCreateBody :=
  { bedNumber := "A-101", ward := .GENERAL, status := none, notes := none }

/-- After POST /api/beds. -/
def demoStore2 : Store := runStore demoStore1 (bedsCreate demoBedBody 20 demoStore1)

/-- The demo patient row as created by POST /api/patients. -/
def demoPatient : Patient := { id := 10, mrn := "MRN0001" }

/-- The demo bed row as created by POST /api/beds. -/
def demoBed : Bed :=
  { id := 20
    bedNumber := "A-101"
    ward := .GENERAL
    status := .AVAILABLE
    patientId := none
    admissionDate := none
    expectedDischargeDate := none
    notes := none }

/-- Body of an admission of the demo patient to the demo bed. -/
def demoAdmissionBody : AdmissionCreateBody :=
  { patientId := 10, bedId := 20, doctorId := 1, admissionDate := 5,
    expectedDischargeDate := none, diagnosis := none, notes := none }

/-- After POST /api/admissions: the bed is OCCUPIED with one ACTIVE
admission. -/
def demoStore3 : Store := runStore demoStore2 (admissionsCreate demoAdmissionBody 30 demoStore2)

theorem demoStore2_full : FullReach demoStore2 :=
  FullReach.bedsCreateStep demoStore1 demoBedBody 20
    (FullReach.patientsCreateStep demoStore0 ("MRN0001") 10
      (FullReach.init [demoDoctor]) (by decide)) (by decide)

theorem demoStore3_full : FullReach demoStore3 :=
  FullReach.admissionsCreateStep demoStore2 demoAdmissionBody 30 demoStore2_full (by decide)

theorem demoStore3_safe : SafeReach demoStore3 :=
  SafeReach.admissionsCreateStep demoStore2 demoAdmissionBody 30
    (SafeReach.bedsCreateStep demoStore1 demoBedBody 20
      (SafeReach.patientsCreateStep demoStore0 ("MRN0001") 10
        (SafeReach.init [demoDoctor]) (by decide)) (by decide) (by decide))
    (by decide)

/-- Body of the bed update that marks the demo bed OCCUPIED directly. -/
def demoBedOccupyBody : BedUpdateBody :=
  { status := some .OCCUPIED, patientId := some 10, admissionDate := none,
    expectedDischargeDate := none, notes := none }

/-- Store obtained by marking the demo bed OCCUPIED through PUT /api/beds/:id
while no admission exists. -/
def c1CexStore : Store := runStore demoStore2 (bedsUpdate 20 demoBedOccupyBody 7 demoStore2)

/-! ## Claims C1 and C4 -/

/-- C1, counterexample: the claimed invariant (a bed is OCCUPIED iff exactly
one ACTIVE admission references it, preserved by every mutating operation,
the bed update endpoint included) fails on a reachable store.  From a store
with one patient and one AVAILABLE bed, PUT /api/beds/:id with status
OCCUPIED and a patientId marks the bed OCCUPIED although no admission row
exists at all. -/
theorem C1_counterexample : FullReach c1CexStore ∧ ¬ BedAdmPairing c1CexStore :=
  ⟨FullReach.bedsUpdateStep demoStore2 20 demoBedOccupyBody 7 demoStore2_full,
    by decide⟩

/-- C1, amended: in every store reachable without the two endpoints that
write a bed status directly (PUT /api/beds/:id, and POST /api/beds with an
explicit OCCUPIED status), a bed has status OCCUPIED exactly when exactly
one ACTIVE admission references it; all admission endpoints (create, update,
delete) and the remaining bed/patient/appointment/inventory endpoints
preserve the pairing. -/
theorem C1_pairing_safe (s : Store) (h : SafeReach s) : BedAdmPairing s :=
  bedAdmPairing_of_inv (safeReach_invC1 s h)

/-- Witness for C1: the pairing holds in the concrete reachable store with
one occupied bed and its single active admission. -/
theorem C1_pairing_safe_witness : BedAdmPairing demoStore3 :=
  C1_pairing_safe demoStore3 demoStore3_safe

/-- C4: in every reachable store, no two admission rows with status ACTIVE
share the same patientId — admission creation rejects a patient who already
has an ACTIVE admission, and no other endpoint ever sets an admission status
to ACTIVE. -/
theorem C4_no_two_active_share_patient (s : Store) (h : FullReach s) :
    ActiveDistinct s :=
  (fullReach_inv4 s h).1

/-- Witness for C4 at a concrete reachable store with one active admission. -/
theorem C4_no_two_active_share_patient_witness : ActiveDistinct demoStore3 :=
  C4_no_two_active_share_patient demoStore3 demoStore3_full

/-! ## Claim C2: admission-creation postcondition -/

/-- C2: whenever the admission-creation preconditions hold (patient exists,
bed exists with status AVAILABLE, doctor exists with role DOCTOR, and the
patient has no ACTIVE admission), the request succeeds and, in the single
atomically produced result store, the bed is OCCUPIED with the patient's id
and the created admission is ACTIVE and references the bed; both writes are
parts of one `.ok` result, so they commit together or not at all. -/
theorem C2_admission_postcondition (s : Store) (body : AdmissionCreateBody) (newId : Nat)
    (patient : Patient) (bed : Bed) (doctor : User)
    (hp : s.patients.find? (fun p => decide (p.id = body.patientId)) = some patient)
    (hb : s.beds.find? (fun b => decide (b.id = body.bedId)) = some bed)
    (hav : bed.status = .AVAILABLE)
    (hd : s.users.find? (fun u => decide (u.id = body.doctorId)) = some doctor)
    (hrole : doctor.role = .DOCTOR)
    (hnoact : s.admissions.find?
      (fun a => decide (a.patientId = body.patientId ∧ a.status = .ACTIVE)) = none) :
    ∃ s' adm, admissionsCreate body newId s = .ok (s', adm) ∧
      adm.status = .ACTIVE ∧ adm.bedId = bed.id ∧ adm.patientId = patient.id ∧
      adm ∈ s'.admissions ∧
      ∀ b ∈ s'.beds, b.id = bed.id →
        b.status = .OCCUPIED ∧ b.patientId = some patient.id := by
  have hbedid : bed.id = body.bedId := by simpa using List.find?_some hb
  have hpatid : patient.id = body.patientId := by simpa using List.find?_some hp
  unfold admissionsCreate
  rw [hp, hb]
  try dsimp only
  rw [if_neg (by rw [hav]; simp), hd]
  try dsimp only
  rw [if_neg (by rw [hrole]; simp), hnoact]
  try dsimp only
  refine ⟨_, _, rfl, rfl, by simpa using hbedid.symm, by simpa using hpatid.symm,
    List.mem_append_right _ (List.mem_singleton_self _), ?_⟩
  intro b hbmem hbid
  obtain ⟨b0, hb0, rfl⟩ := List.mem_map.mp hbmem
  by_cases h0 : b0.id = body.bedId
  · rw [if_pos h0]
    exact ⟨rfl, by rw [hpatid]⟩
  · rw [if_neg h0] at hbid ⊢
    exact absurd (hbid.trans hbedid) h0

/-- Witness for C2 on the concrete demo store: placing patient 10 in to the
AVAILABLE bed 20 under doctor 1. -/
theorem C2_admission_postcondition_witness :
    ∃ s' adm, admissionsCreate demoAdmissionBody 30 demoStore2 = .ok (s', adm) ∧
      adm.status = .ACTIVE ∧ adm.bedId = demoBed.id ∧
      adm.patientId = demoPatient.id ∧
      adm ∈ s'.admissions ∧
      ∀ b ∈ s'.beds, b.id = demoBed.id →
        b.status = .OCCUPIED ∧ b.patientId = some demoPatient.id :=
  C2_admission_postcondition demoStore2 demoAdmissionBody 30 demoPatient demoBed demoDoctor
    (by decide) (by decide) (by decide) (by decide) (by decide) (by decide)

/-! ## Claim C3: discharge/transfer postcondition -/

/-- C3: updating an ACTIVE admission with requested status DISCHARGED or
TRANSFERRED succeeds, and in the single atomically produced result store the
admission carries the requested status, its dischargeDate is the supplied
date or the current time when none is supplied, and the referenced bed is
reset to AVAILABLE with patientId, admissionDate and expectedDischargeDate
all null; both writes are parts of one `.ok` result. -/
theorem C3_discharge_postcondition (s : Store) (id : Nat) (body : AdmissionUpdateBody)
    (now : Nat) (adm : Admission) (r : AdmissionStatus)
    (hfind : s.admissions.find? (fun a => decide (a.id = id)) = some adm)
    (hactive : adm.status = .ACTIVE)
    (hst : body.status = some r)
    (hr : r = .DISCHARGED ∨ r = .TRANSFERRED) :
    ∃ s' upd, admissionsUpdate id body now s = .ok (s', upd) ∧
      upd.status = r ∧
      (∀ d, body.dischargeDate = some d → upd.dischargeDate = some d) ∧
      (body.dischargeDate = none → upd.dischargeDate = some now) ∧
      upd ∈ s'.admissions ∧
      ∀ b ∈ s'.beds, b.id = adm.bedId →
        b.status = .AVAILABLE ∧ b.patientId = none ∧
        b.admissionDate = none ∧ b.expectedDischargeDate = none := by
  have hmem : adm ∈ s.admissions := List.mem_of_find?_eq_some hfind
  have hid : adm.id = id := by simpa using List.find?_some hfind
  have hrne : r ≠ AdmissionStatus.ACTIVE := by
    rcases hr with hr | hr <;> rw [hr] <;> simp
  unfold admissionsUpdate
  rw [hfind, hst]
  try dsimp only
  rw [if_pos (And.intro hrne hactive)]
  refine ⟨_, _, rfl, rfl, ?_, ?_, ?_, ?_⟩
  · intro d hd
    simp [hd]
  · intro hd
    simp [hd]
  · refine List.mem_map.mpr ⟨adm, hmem, ?_⟩
    rw [if_pos hid]
  · intro b hbmem hbid
    obtain ⟨b0, hb0, rfl⟩ := List.mem_map.mp hbmem
    by_cases h0 : b0.id = adm.bedId
    · rw [if_pos h0]
      exact ⟨rfl, rfl, rfl, rfl⟩
    · rw [if_neg h0] at hbid ⊢
      exact absurd hbid h0

/-- Body of the demo discharge request (no explicit dischargeDate). -/
def demoDischargeBody : AdmissionUpdateBody :=
  { status := some .DISCHARGED, dischargeDate := none, diagnosis := none,
    notes := none }

/-- The demo admission row as created by POST /api/admissions. -/
def demoAdmission : Admission :=
  { id := 30
    patientId := 10
    bedId := 20
    doctorId := 1
    admissionDate := 5
    dischargeDate := none
    status := .ACTIVE
    diagnosis := none
    notes := none }

/-- Witness for C3: discharging the demo admission at time 99 frees bed 20
and stamps dischargeDate 99. -/
theorem C3_discharge_postcondition_witness :
    ∃ s' upd, admissionsUpdate 30 demoDischargeBody 99 demoStore3 = .ok (s', upd) ∧
      upd.status = .DISCHARGED ∧
      (∀ d, demoDischargeBody.dischargeDate = some d → upd.dischargeDate = some d) ∧
      (demoDischargeBody.dischargeDate = none → upd.dischargeDate = some 99) ∧
      upd ∈ s'.admissions ∧
      ∀ b ∈ s'.beds, b.id = demoAdmission.bedId →
        b.status = .AVAILABLE ∧ b.patientId = none ∧
        b.admissionDate = none ∧ b.expectedDischargeDate = none :=
  C3_discharge_postcondition demoStore3 30 demoDischargeBody 99 demoAdmission
    .DISCHARGED (by decide) (by decide) (by decide) (Or.inl rfl)

/-! ## Claim C9: admission update without an ACTIVE-to-non-ACTIVE transition -/

/-- C9: updating an admission whose current status is not ACTIVE, or where
the requested status is ACTIVE, runs the simple branch: every bed is left
unchanged, the admission keeps its status, dischargeDate, patient, bed,
doctor and admission date, and only diagnosis and notes can change — where a
supplied empty string (or an omitted field) leaves the old value in place. -/
theorem C9_simple_update_frame (s : Store) (id : Nat) (body : AdmissionUpdateBody)
    (now : Nat) (adm : Admission)
    (hfind : s.admissions.find? (fun a => decide (a.id = id)) = some adm)
    (hcase : adm.status ≠ .ACTIVE ∨ body.status = some .ACTIVE) :
    ∃ s' upd, admissionsUpdate id body now s = .ok (s', upd) ∧
      s'.beds = s.beds ∧
      upd.status = adm.status ∧ upd.dischargeDate = adm.dischargeDate ∧
      upd.patientId = adm.patientId ∧ upd.bedId = adm.bedId ∧
      upd.doctorId = adm.doctorId ∧ upd.admissionDate = adm.admissionDate ∧
      upd.diagnosis = jsOrOpt body.diagnosis adm.diagnosis ∧
      upd.notes = jsOrOpt body.notes adm.notes ∧
      (body.diagnosis = some ("") → upd.diagnosis = adm.diagnosis) ∧
      (body.diagnosis = none → upd.diagnosis = adm.diagnosis) ∧
      (body.notes = some ("") → upd.notes = adm.notes) ∧
      (body.notes = none → upd.notes = adm.notes) ∧
      (∀ a ∈ s.admissions, a.id ≠ id → a ∈ s'.admissions) := by
  have hrest : ∀ a ∈ s.admissions, a.id ≠ id →
      a ∈ s.admissions.map (fun a =>
        if a.id = id then
          { adm with
            diagnosis := jsOrOpt body.diagnosis adm.diagnosis
            notes := jsOrOpt body.notes adm.notes }
        else a) := by
    intro a ha hne
    refine List.mem_map.mpr ⟨a, ha, ?_⟩
    rw [if_neg hne]
  unfold admissionsUpdate
  rw [hfind]
  try dsimp only
  cases hst : body.status with
  | none =>
    refine ⟨_, _, rfl, rfl, rfl, rfl, rfl, rfl, rfl, rfl, rfl, rfl, ?_, ?_, ?_, ?_, hrest⟩
    · intro hd
      simp [jsOrOpt, hd]
    · intro hd
      simp [jsOrOpt, hd]
    · intro hn
      simp [jsOrOpt, hn]
    · intro hn
      simp [jsOrOpt, hn]
  | some r =>
    try dsimp only
    have hcond : ¬ (r ≠ AdmissionStatus.ACTIVE ∧ adm.status = AdmissionStatus.ACTIVE) := by
      rcases hcase with hcase | hcase
      · exact fun hcontra => hcase hcontra.2
      · rw [hst] at hcase
        intro hcontra
        exact hcontra.1 (Option.some.inj hcase)
    rw [if_neg hcond]
    refine ⟨_, _, rfl, rfl, rfl, rfl, rfl, rfl, rfl, rfl, rfl, rfl, ?_, ?_, ?_, ?_, hrest⟩
    · intro hd
      simp [jsOrOpt, hd]
    · intro hd
      simp [jsOrOpt, hd]
    · intro hn
      simp [jsOrOpt, hn]
    · intro hn
      simp [jsOrOpt, hn]

/-- Body of a C9 demo update: requested status ACTIVE on a discharged
admission, an empty-string diagnosis and fresh notes. -/
def c9Body : AdmissionUpdateBody :=
  { status := some .ACTIVE, dischargeDate := some 123, diagnosis := some (""),
    notes := some ("stable") }

/-- Store with the demo admission discharged at time 99. -/
def c9Store : Store := runStore demoStore3 (admissionsUpdate 30 demoDischargeBody 99 demoStore3)

/-- The demo admission row after its discharge at time 99. -/
def c9Admission : Admission :=
  { demoAdmission with status := .DISCHARGED, dischargeDate := some 99 }

/-- Witness for C9: a requested ACTIVE status on the discharged demo
admission only rewrites diagnosis/notes (the empty-string diagnosis is
dropped) and leaves the beds untouched. -/
theorem C9_simple_update_frame_witness :
    ∃ s' upd, admissionsUpdate 30 c9Body 200 c9Store = .ok (s', upd) ∧
      s'.beds = c9Store.beds ∧
      upd.status = c9Admission.status ∧ upd.dischargeDate = c9Admission.dischargeDate ∧
      upd.patientId = c9Admission.patientId ∧ upd.bedId = c9Admission.bedId ∧
      upd.doctorId = c9Admission.doctorId ∧ upd.admissionDate = c9Admission.admissionDate ∧
      upd.diagnosis = jsOrOpt c9Body.diagnosis c9Admission.diagnosis ∧
      upd.notes = jsOrOpt c9Body.notes c9Admission.notes ∧
      (c9Body.diagnosis = some ("") → upd.diagnosis = c9Admission.diagnosis) ∧
      (c9Body.diagnosis = none → upd.diagnosis = c9Admission.diagnosis) ∧
      (c9Body.notes = some ("") → upd.notes = c9Admission.notes) ∧
      (c9Body.notes = none → upd.notes = c9Admission.notes) ∧
      (∀ a ∈ c9Store.admissions, a.id ≠ 30 → a ∈ s'.admissions) :=
  C9_simple_update_frame c9Store 30 c9Body 200 c9Admission (by decide)
    (Or.inr rfl)

/-! ## Claim C5: admission creation against an unavailable bed -/

/-- Body of an admission request naming a patient id that does not exist. -/
def c5NoPatientBody : AdmissionCreateBody :=
  { patientId := 99, bedId := 20, doctorId := 1, admissionDate := 0,
    expectedDischargeDate := none, diagnosis := none, notes := none }

/-- Body of a bed creation with an explicit MAINTENANCE status. -/
def c5BedBody : BedCreateBody :=
  { bedNumber := "M-1", ward := .GENERAL, status := some .MAINTENANCE, notes := none }

/-- Reachable store holding one MAINTENANCE bed (id 20) and no patients. -/
def c5CexStore : Store := runStore demoStore0 (bedsCreate c5BedBody 20 demoStore0)

/-- The MAINTENANCE bed row of `c5CexStore`. -/
def c5Bed : Bed :=
  { id := 20
    bedNumber := "M-1"
    ward := .GENERAL
    status := .MAINTENANCE
    patientId := none
    admissionDate := none
    expectedDischargeDate := none
    notes := none }

/-- C5, counterexample: an admission request targeting a MAINTENANCE bed is NOT
always rejected with the bed-unavailable reason — the patient lookup runs
first, so when the named patient does not exist the reply is the
patient-not-found reason instead. -/
theorem C5_counterexample :
    FullReach c5CexStore ∧
    c5CexStore.beds.find? (fun b => decide (b.id = c5NoPatientBody.bedId)) = some c5Bed ∧
    c5Bed.status = .MAINTENANCE ∧
    admissionsCreate c5NoPatientBody 31 c5CexStore = .error .patientNotFound ∧
    ApiErr.patientNotFound ≠ ApiErr.bedNotAvailable :=
  ⟨FullReach.bedsCreateStep demoStore0 c5BedBody 20 (FullReach.init [demoDoctor])
      (by decide),
    by decide, by decide, rfl, by decide⟩

/-- C5, amended: an admission request targeting an existing bed whose status is
OCCUPIED or MAINTENANCE is always rejected and leaves the store unchanged;
the reported reason is bed-unavailable whenever the named patient exists
(the patient lookup precedes the bed check), and patient-not-found
otherwise. -/
theorem C5_bed_unavailable_reject (s : Store) (body : AdmissionCreateBody)
    (newId : Nat) (bed : Bed)
    (hb : s.beds.find? (fun b => decide (b.id = body.bedId)) = some bed)
    (hunav : bed.status = .OCCUPIED ∨ bed.status = .MAINTENANCE) :
    (∃ e, admissionsCreate body newId s = .error e) ∧
      runStore s (admissionsCreate body newId s) = s ∧
      ∀ p, s.patients.find? (fun q => decide (q.id = body.patientId)) = some p →
        admissionsCreate body newId s = .error .bedNotAvailable := by
  have hne : bed.status ≠ BedStatus.AVAILABLE := by
    rcases hunav with h | h <;> rw [h] <;> simp
  unfold admissionsCreate
  cases hp : s.patients.find? (fun q => decide (q.id = body.patientId)) with
  | none =>
    refine ⟨⟨.patientNotFound, rfl⟩, rfl, ?_⟩
    intro p hp2
    exact absurd hp2 (by simp)
  | some p =>
    try dsimp only
    rw [hb]
    try dsimp only
    rw [if_pos hne]
    exact ⟨⟨.bedNotAvailable, rfl⟩, rfl, fun q hq => rfl⟩

/-- Store with both the demo patient and the MAINTENANCE bed. -/
def c5WitnessStore : Store := runStore c5CexStore (patientsCreate ("MRN0001") 10 c5CexStore)

/-- Body of an admission of the existing demo patient to the MAINTENANCE
bed. -/
def c5WitnessBody : AdmissionCreateBody :=
  { patientId := 10, bedId := 20, doctorId := 1, admissionDate := 0,
    expectedDischargeDate := none, diagnosis := none, notes := none }

/-- Witness for C5: the request against the MAINTENANCE bed is rejected, the
store is unchanged, and — the patient existing — the reason is
bed-unavailable. -/
theorem C5_bed_unavailable_reject_witness :
    (∃ e, admissionsCreate c5WitnessBody 31 c5WitnessStore = .error e) ∧
      runStore c5WitnessStore (admissionsCreate c5WitnessBody 31 c5WitnessStore) =
        c5WitnessStore ∧
      ∀ p, c5WitnessStore.patients.find?
          (fun q => decide (q.id = c5WitnessBody.patientId)) = some p →
        admissionsCreate c5WitnessBody 31 c5WitnessStore = .error .bedNotAvailable :=
  C5_bed_unavailable_reject c5WitnessStore c5WitnessBody 31 c5Bed (by decide)
    (Or.inr (by decide))

/-! ## Claim C10: inventory update field semantics -/

/-- C10: in an inventory item update, a supplied quantity of 0 is stored
(the handler tests quantity against undefined explicitly), while a supplied
cost of 0 or an empty string for name, description, supplier, or location is
silently dropped and the previous value kept (JavaScript `||` fallback);
every omitted field keeps its previous value. -/
theorem C10_inventory_update (s : Store) (id : Nat) (body : InventoryUpdateBody)
    (item : InventoryItem)
    (hfind : s.inventory.find? (fun it => decide (it.id = id)) = some item) :
    ∃ s' upd, inventoryUpdate id body s = .ok (s', upd) ∧
      (∀ q, body.quantity = some q → upd.quantity = q) ∧
      (body.quantity = some 0 → upd.quantity = 0) ∧
      (body.quantity = none → upd.quantity = item.quantity) ∧
      (body.cost = some 0 → upd.cost = item.cost) ∧
      (body.cost = none → upd.cost = item.cost) ∧
      (body.name = some ("") → upd.name = item.name) ∧
      (body.name = none → upd.name = item.name) ∧
      (body.description = some ("") → upd.description = item.description) ∧
      (body.description = none → upd.description = item.description) ∧
      (body.supplier = some ("") → upd.supplier = item.supplier) ∧
      (body.supplier = none → upd.supplier = item.supplier) ∧
      (body.location = some ("") → upd.location = item.location) ∧
      (body.location = none → upd.location = item.location) ∧
      (body.reorderLevel = none → upd.reorderLevel = item.reorderLevel) ∧
      (body.expiryDate = none → upd.expiryDate = item.expiryDate) := by
  unfold inventoryUpdate
  rw [hfind]
  try dsimp only
  refine ⟨_, _, rfl, ?_, ?_, ?_, ?_, ?_, ?_, ?_, ?_, ?_, ?_, ?_, ?_, ?_, ?_, ?_⟩
  all_goals first
    | (intro q hq; simp [hq])
    | (intro h; simp [h, jsOrStr, jsOrOpt])

/-- The demo inventory item (cost 3, quantity 5). -/
def c10CreateBody : InventoryCreateBody :=
  { name := "Gauze", category := .SUPPLIES, description := none, unit := "box",
    quantity := 5, reorderLevel := 2, cost := 3, supplier := none,
    expiryDate := none, location := none }

/-- Store holding only the demo inventory item (id 50). -/
def c10Store : Store := runStore demoStore0 (inventoryCreate c10CreateBody 50 demoStore0)

/-- The stored demo item row. -/
def c10Item : InventoryItem :=
  { id := 50
    name := "Gauze"
    category := .SUPPLIES
    description := none
    unit := "box"
    quantity := 5
    reorderLevel := 2
    cost := 3
    supplier := none
    expiryDate := none
    location := none }

/-- Update body supplying quantity 0, cost 0 and an empty name. -/
def c10Body : InventoryUpdateBody :=
  { name := some (""), description := none, quantity := some 0,
    reorderLevel := none, cost := some 0, supplier := some (""),
    expiryDate := none, location := some ("") }

/-- Witness for C10: quantity 0 is stored while cost 0 and the empty strings
are dropped. -/
theorem C10_inventory_update_witness :
    ∃ s' upd, inventoryUpdate 50 c10Body c10Store = .ok (s', upd) ∧
      (∀ q, c10Body.quantity = some q → upd.quantity = q) ∧
      (c10Body.quantity = some 0 → upd.quantity = 0) ∧
      (c10Body.quantity = none → upd.quantity = c10Item.quantity) ∧
      (c10Body.cost = some 0 → upd.cost = c10Item.cost) ∧
      (c10Body.cost = none → upd.cost = c10Item.cost) ∧
      (c10Body.name = some ("") → upd.name = c10Item.name) ∧
      (c10Body.name = none → upd.name = c10Item.name) ∧
      (c10Body.description = some ("") → upd.description = c10Item.description) ∧
      (c10Body.description = none → upd.description = c10Item.description) ∧
      (c10Body.supplier = some ("") → upd.supplier = c10Item.supplier) ∧
      (c10Body.supplier = none → upd.supplier = c10Item.supplier) ∧
      (c10Body.location = some ("") → upd.location = c10Item.location) ∧
      (c10Body.location = none → upd.location = c10Item.location) ∧
      (c10Body.reorderLevel = none → upd.reorderLevel = c10Item.reorderLevel) ∧
      (c10Body.expiryDate = none → upd.expiryDate = c10Item.expiryDate) :=
  C10_inventory_update c10Store 50 c10Body c10Item (by decide)

/-! ## Queue-number lemmas (claims C6 and C7) -/

theorem qnDescLt_irrefl (q : Option Nat) : qnDescLt q q = false := by
  cases q <;> simp [qnDescLt]

theorem qnDescLt_asymm {a b : Option Nat} (h : qnDescLt a b = true) :
    qnDescLt b a = false := by
  cases a <;> cases b <;> simp_all [qnDescLt]
  omega

theorem qnDescLt_neg_trans {a b c : Option Nat} (h1 : qnDescLt a b = false)
    (h2 : qnDescLt b c = false) : qnDescLt a c = false := by
  cases a <;> cases b <;> cases c <;> simp_all [qnDescLt]
  omega

theorem pickHighestQn_eq_none {l : List (Option Nat)} :
    pickHighestQn l = none ↔ l = [] := by
  cases l with
  | nil => simp [pickHighestQn]
  | cons q rest =>
    simp only [pickHighestQn]
    constructor
    · intro h
      cases hrec : pickHighestQn rest <;> rw [hrec] at h
      · exact absurd h (by simp)
      · rename_i q'
        by_cases hlt : qnDescLt q q' = true <;> simp [hlt] at h
    · intro h
      exact absurd h (by simp)

theorem pickHighestQn_mem_max {l : List (Option Nat)} {q : Option Nat}
    (h : pickHighestQn l = some q) :
    q ∈ l ∧ ∀ q' ∈ l, qnDescLt q q' = false := by
  induction l generalizing q with
  | nil => exact absurd h (by simp [pickHighestQn])
  | cons a rest ih =>
    rw [pickHighestQn] at h
    cases hrec : pickHighestQn rest with
    | none =>
      rw [hrec] at h
      have hrest : rest = [] := pickHighestQn_eq_none.mp hrec
      subst hrest
      simp only [Option.some.injEq] at h
      subst h
      exact ⟨List.mem_singleton_self _, by
        intro q' hq'
        simp only [List.mem_singleton] at hq'
        subst hq'
        exact qnDescLt_irrefl _⟩
    | some b =>
      rw [hrec] at h
      dsimp only at h
      obtain ⟨hbmem, hbmax⟩ := ih hrec
      by_cases hlt : qnDescLt a b = true
      · rw [if_pos hlt] at h
        simp only [Option.some.injEq] at h
        subst h
        refine ⟨List.mem_cons_of_mem _ hbmem, ?_⟩
        intro q' hq'
        rcases List.mem_cons.mp hq' with hq' | hq'
        · subst hq'
          exact qnDescLt_asymm hlt
        · exact hbmax q' hq'
      · rw [if_neg hlt] at h
        simp only [Option.some.injEq] at h
        subst h
        refine ⟨List.mem_cons_self _ _, ?_⟩
        intro q' hq'
        rcases List.mem_cons.mp hq' with hq' | hq'
        · subst hq'
          exact qnDescLt_irrefl _
        · exact qnDescLt_neg_trans (Bool.eq_false_iff.mpr hlt) (hbmax q' hq')

/-- The maximum queue number carried by a list of rows (a NULL carrying
none, the default being 0) — the quantity named by the specification. -/
def maxQn (l : List (Option Nat)) : Nat :=
  l.foldr (fun q m => max (q.getD 0) m) 0

theorem le_maxQn {l : List (Option Nat)} {q : Option Nat} (h : q ∈ l) :
    q.getD 0 ≤ maxQn l := by
  induction l with
  | nil => exact absurd h (List.not_mem_nil _)
  | cons a rest ih =>
    rcases List.mem_cons.mp h with h | h
    · subst h
      exact Nat.le_max_left _ _
    · exact Nat.le_trans (ih h) (Nat.le_max_right _ _)

theorem maxQn_le {l : List (Option Nat)} {n : Nat}
    (h : ∀ q ∈ l, q.getD 0 ≤ n) : maxQn l ≤ n := by
  induction l with
  | nil => exact Nat.zero_le n
  | cons a rest ih =>
    exact Nat.max_le.mpr ⟨h a (List.mem_cons_self _ _),
      ih (fun q hq => h q (List.mem_cons_of_mem _ hq))⟩

/-- When every same-date non-cancelled appointment carries a queue number,
the computed next queue number is the maximum plus one. -/
theorem nextQueueNumber_eq_max_succ (date : Nat) (s : Store)
    (hall : ∀ q ∈ sameDateQns date s, q ≠ none) :
    nextQueueNumber date s = maxQn (sameDateQns date s) + 1 := by
  unfold nextQueueNumber
  cases hp : pickHighestQn (sameDateQns date s) with
  | none =>
    rw [pickHighestQn_eq_none.mp hp]
    rfl
  | some q =>
    obtain ⟨hqmem, hqmax⟩ := pickHighestQn_mem_max hp
    cases q with
    | none => exact absurd rfl (hall none hqmem)
    | some n =>
      have hmax : maxQn (sameDateQns date s) = n := by
        refine Nat.le_antisymm (maxQn_le ?_) ?_
        · intro q' hq'
          cases q' with
          | none => exact absurd rfl (hall none hq')
          | some m =>
            have := hqmax (some m) hq'
            simp only [qnDescLt, decide_eq_false_iff_not, Nat.not_lt] at this
            simpa using this
        · simpa using le_maxQn hqmem
      try dsimp only
      rw [hmax]
      by_cases hn : n = 0
      · rw [if_pos hn, hn]
      · rw [if_neg hn]

/-! ## Claim C6: queue-number assignment at creation -/

/-- C6, amended: provided every existing same-date non-cancelled appointment
carries a queue number (true of every store built without un-cancelling
updates), a non-cancelled creation is assigned the maximum existing
queue number plus one (0 when there are none, so the first gets 1), and a
CANCELLED creation stores a null queue number. -/
theorem C6_queue_assignment (s : Store) (body : AppointmentCreateBody) (newId : Nat)
    (patient : Patient) (doctor : User)
    (hp : s.patients.find? (fun p => decide (p.id = body.patientId)) = some patient)
    (hd : s.users.find? (fun u => decide (u.id = body.doctorId)) = some doctor)
    (hrole : doctor.role = .DOCTOR)
    (hall : ∀ q ∈ sameDateQns body.date s, q ≠ none) :
    ∃ s' ap, appointmentsCreate body newId s = .ok (s', ap) ∧
      (body.status ≠ .CANCELLED →
        ap.queueNumber = some (maxQn (sameDateQns body.date s) + 1)) ∧
      (body.status = .CANCELLED → ap.queueNumber = none) := by
  unfold appointmentsCreate
  rw [hp]
  try dsimp only
  rw [hd]
  try dsimp only
  rw [if_neg (by rw [hrole]; simp)]
  try dsimp only
  refine ⟨_, _, rfl, ?_, ?_⟩
  · intro hs
    show (if body.status ≠ .CANCELLED then some (nextQueueNumber body.date s)
      else none) = _
    rw [if_pos hs, nextQueueNumber_eq_max_succ body.date s hall]
  · intro hs
    show (if body.status ≠ .CANCELLED then some (nextQueueNumber body.date s)
      else none) = _
    rw [if_neg (by rw [hs]; simp)]

/-- Body of the demo appointment creations (date 100, SCHEDULED). -/
def c6ApBody : AppointmentCreateBody :=
  { patientId := 10, doctorId := 1, date := 100, time := "09:00",
    status := .SCHEDULED, type := .GENERAL, notes := none }

/-- Store after the first appointment creation (queue number 1). -/
def c6Store1 : Store := runStore demoStore2 (appointmentsCreate c6ApBody 40 demoStore2)

/-- Witness for C6: the second same-date creation is assigned the maximum
(1) plus one. -/
theorem C6_queue_assignment_witness :
    ∃ s' ap, appointmentsCreate c6ApBody 41 c6Store1 = .ok (s', ap) ∧
      (c6ApBody.status ≠ .CANCELLED →
        ap.queueNumber = some (maxQn (sameDateQns c6ApBody.date c6Store1) + 1)) ∧
      (c6ApBody.status = .CANCELLED → ap.queueNumber = none) :=
  C6_queue_assignment c6Store1 c6ApBody 41 demoPatient demoDoctor
    (by decide) (by decide) rfl (by decide)

/-- The CANCELLED creation body. -/
def c6CancelBody : AppointmentCreateBody := { c6ApBody with status := .CANCELLED }

/-- Store after additionally creating a CANCELLED appointment (null queue
number). -/
def c6Store2 : Store := runStore c6Store1 (appointmentsCreate c6CancelBody 41 c6Store1)

/-- The un-cancelling update body. -/
def c6UncancelBody : AppointmentUpdateBody := { status := some .SCHEDULED, notes := none }

/-- Store in which appointment 41 was un-cancelled by PUT — a non-cancelled
appointment with a null queue number now exists on date 100. -/
def c6CexStore : Store := runStore c6Store2 (appointmentsUpdate 41 c6UncancelBody c6Store2)

/-- Queue number of the appointment created by a successful request. -/
def createdQn (r : Except ApiErr (Store × Appointment)) : Option (Option Nat) :=
  match r with
  | .ok (_, ap) => some ap.queueNumber
  | .error _ => none

/-- C6, counterexample: on the reachable store where appointment 41 was
un-cancelled (so a non-cancelled same-date row with a NULL queue number
exists next to the row numbered 1), the next creation is assigned queue
number 1 — PostgreSQL sorts the NULL first under `orderBy queueNumber desc`
and the handler falls back to 1 — whereas the claim demands the maximum plus
one, i.e. 2. -/
theorem C6_counterexample :
    FullReach c6CexStore ∧
    maxQn (sameDateQns c6ApBody.date c6CexStore) = 1 ∧
    createdQn (appointmentsCreate c6ApBody 42 c6CexStore) = some (some 1) ∧
    (some (some 1) : Option (Option Nat)) ≠
      some (some (maxQn (sameDateQns c6ApBody.date c6CexStore) + 1)) := by
  refine ⟨?_, by decide, by decide, by decide⟩
  exact FullReach.appointmentsUpdateStep c6Store2 41 c6UncancelBody
    (FullReach.appointmentsCreateStep c6Store1 c6CancelBody 41
      (FullReach.appointmentsCreateStep demoStore2 c6ApBody 40 demoStore2_full
        (by decide))
      (by decide))

/-! ## Claim C7: queue-number invariant -/

/-- The sequence of queue numbers 1, 2, ..., k. -/
def seqQueue (k : Nat) : List (Option Nat) :=
  (List.range k).map (fun i => some (i + 1))

/-- Cancelled appointments carry no queue number. -/
def CancelledNoQn (s : Store) : Prop :=
  ∀ a ∈ s.appointments, a.status = .CANCELLED → a.queueNumber = none

/-- On every date, the queue numbers of the non-cancelled appointments, in
row order, are exactly 1, 2, ..., k. -/
def QueueSequential (s : Store) : Prop :=
  ∀ date, sameDateQns date s = seqQueue (sameDateQns date s).length

/-- The queue-number invariant stated by the specification. -/
def QueueInv (s : Store) : Prop := CancelledNoQn s ∧ QueueSequential s

theorem seqQueue_snoc (k : Nat) : seqQueue (k + 1) = seqQueue k ++ [some (k + 1)] := by
  simp [seqQueue, List.range_succ]

theorem maxQn_append (l1 l2 : List (Option Nat)) :
    maxQn (l1 ++ l2) = max (maxQn l1) (maxQn l2) := by
  induction l1 with
  | nil => simp [maxQn]
  | cons a l1 ih =>
    show max _ (maxQn (l1 ++ l2)) = max (max _ (maxQn l1)) (maxQn l2)
    rw [ih, Nat.max_assoc]

theorem maxQn_seqQueue (k : Nat) : maxQn (seqQueue k) = k := by
  induction k with
  | zero => rfl
  | succ k ih =>
    rw [seqQueue_snoc, maxQn_append, ih]
    show max k (max (k + 1) 0) = k + 1
    omega

theorem length_seqQueue (k : Nat) : (seqQueue k).length = k := by
  simp [seqQueue]

theorem queueSequential_all_some {s : Store} (h : QueueSequential s) (date : Nat) :
    ∀ q ∈ sameDateQns date s, q ≠ none := by
  intro q hq
  rw [h date] at hq
  obtain ⟨i, _, rfl⟩ := List.mem_map.mp hq
  simp

/-- Under the sequential invariant, the computed next queue number is the
current row count plus one. -/
theorem nextQueueNumber_of_seq {s : Store} (h : QueueSequential s) (date : Nat) :
    nextQueueNumber date s = (sameDateQns date s).length + 1 := by
  rw [nextQueueNumber_eq_max_succ date s (queueSequential_all_some h date)]
  have : maxQn (sameDateQns date s) = (sameDateQns date s).length := by
    conv_lhs => rw [h date]
    rw [maxQn_seqQueue]
  rw [this]

theorem queueInv_of_appointments_eq {s t : Store}
    (h : t.appointments = s.appointments) (hs : QueueInv s) : QueueInv t := by
  obtain ⟨h1, h2⟩ := hs
  constructor
  · intro a ha
    exact h1 a (h ▸ ha)
  · intro date
    unfold sameDateQns
    rw [h]
    exact h2 date

theorem queueInv_appointmentsCreate (s : Store) (body : AppointmentCreateBody)
    (newId : Nat) (h : QueueInv s) :
    QueueInv (runStore s (appointmentsCreate body newId s)) := by
  obtain ⟨h1, h2⟩ := h
  unfold appointmentsCreate
  try dsimp only
  cases hp : s.patients.find? (fun p => decide (p.id = body.patientId)) with
  | none => exact ⟨h1, h2⟩
  | some patient =>
  try dsimp only
  cases hd : s.users.find? (fun u => decide (u.id = body.doctorId)) with
  | none => exact ⟨h1, h2⟩
  | some doctor =>
  try dsimp only
  by_cases hrole : doctor.role ≠ Role.DOCTOR
  · rw [if_pos hrole]
    exact ⟨h1, h2⟩
  · rw [if_neg hrole]
    try dsimp only [runStore]
    constructor
    · intro a ha hcanc
      rcases List.mem_append.mp ha with ha | ha
      · exact h1 a ha hcanc
      · simp only [List.mem_singleton] at ha
        subst ha
        simp only at hcanc ⊢
        rw [if_neg (by rw [hcanc]; simp)]
    · intro date
      by_cases hmatch : body.date = date ∧ body.status ≠ .CANCELLED
      · have hq : sameDateQns date
            { s with appointments := s.appointments ++
                [{ id := newId, patientId := body.patientId, doctorId := body.doctorId,
                   date := body.date, time := body.time, status := body.status,
                   type := body.type, notes := body.notes,
                   queueNumber := if body.status ≠ .CANCELLED then
                     some (nextQueueNumber body.date s) else none }] } =
            sameDateQns date s ++ [some (nextQueueNumber body.date s)] := by
          unfold sameDateQns
          rw [List.filter_append, List.map_append]
          congr 1
          rw [List.filter_cons]
          rw [if_pos (by simp [hmatch.1, hmatch.2])]
          simp only [List.filter_nil, List.map_cons, List.map_nil]
          rw [if_pos hmatch.2]
        show sameDateQns date _ = seqQueue (sameDateQns date _).length
        rw [hq, nextQueueNumber_of_seq h2 body.date, hmatch.1]
        conv_lhs => rw [h2 date]
        rw [List.length_append, length_seqQueue]
        show _ = seqQueue ((sameDateQns date s).length + 1)
        rw [seqQueue_snoc]
      · have hq : sameDateQns date
            { s with appointments := s.appointments ++
                [{ id := newId, patientId := body.patientId, doctorId := body.doctorId,
                   date := body.date, time := body.time, status := body.status,
                   type := body.type, notes := body.notes,
                   queueNumber := if body.status ≠ .CANCELLED then
                     some (nextQueueNumber body.date s) else none }] } =
            sameDateQns date s := by
          unfold sameDateQns
          rw [List.filter_append, List.filter_cons]
          rw [if_neg (by simpa using fun hd hs => hmatch ⟨hd, hs⟩)]
          simp
        show sameDateQns date _ = seqQueue (sameDateQns date _).length
        rw [hq]
        exact h2 date

/-- C7, amended: in every store reachable without the appointment update
and delete endpoints, queue numbers are assigned sequentially per calendar
date among non-cancelled appointments starting at 1, and every CANCELLED
appointment carries no queue number.  The update endpoint breaks the
invariant: it rewrites the status while never touching the queueNumber
column. -/
theorem C7_queue_invariant (s : Store) (h : QueueReach s) : QueueInv s := by
  induction h with
  | init users =>
      exact ⟨fun a ha => absurd ha (List.not_mem_nil _), fun date => rfl⟩
  | patientsCreateStep s mrn newId h hfresh ih =>
      exact queueInv_of_appointments_eq (patientsCreate_frame s mrn newId).2.2 ih
  | patientsDeleteStep s id h ih =>
      exact queueInv_of_appointments_eq (patientsDelete_frame s id).2 ih
  | bedsCreateStep s body newId h hfresh ih =>
      exact queueInv_of_appointments_eq (bedsCreate_frame s body newId).2 ih
  | bedsUpdateStep s id body now h ih =>
      exact queueInv_of_appointments_eq (bedsUpdate_frame s id body now).2 ih
  | bedsDeleteStep s id h ih =>
      exact queueInv_of_appointments_eq (bedsDelete_frame s id).2 ih
  | admissionsCreateStep s body newId h hfresh ih =>
      exact queueInv_of_appointments_eq (admissionsCreate_frame s body newId) ih
  | admissionsUpdateStep s id body now h ih =>
      exact queueInv_of_appointments_eq (admissionsUpdate_frame s id body now) ih
  | admissionsDeleteStep s id h ih =>
      exact queueInv_of_appointments_eq (admissionsDelete_frame s id) ih
  | appointmentsCreateStep s body newId h hfresh ih =>
      exact queueInv_appointmentsCreate s body newId ih
  | inventoryCreateStep s body newId h hfresh ih =>
      exact queueInv_of_appointments_eq (inventoryCreate_frame s body newId).2.2 ih
  | inventoryUpdateStep s id body h ih =>
      exact queueInv_of_appointments_eq (inventoryUpdate_frame s id body).2.2 ih
  | inventoryDeleteStep s id h ih =>
      exact queueInv_of_appointments_eq (inventoryDelete_frame s id).2.2 ih

/-- Body of the cancelling update. -/
def c7CancelUpdateBody : AppointmentUpdateBody :=
  { status := some .CANCELLED, notes := none }

/-- Store in which appointment 40 (queue number 1) was cancelled through
PUT /api/appointments/:id. -/
def c7CexStore : Store := runStore c6Store1 (appointmentsUpdate 40 c7CancelUpdateBody c6Store1)

/-- C7, counterexample: cancelling an appointment through the update
endpoint leaves its queue number in place, so the reachable store
`c7CexStore` holds a CANCELLED appointment carrying queue number 1,
violating the claimed invariant. -/
theorem C7_counterexample : FullReach c7CexStore ∧ ¬ QueueInv c7CexStore := by
  constructor
  · exact FullReach.appointmentsUpdateStep c6Store1 40 c7CancelUpdateBody
      (FullReach.appointmentsCreateStep demoStore2 c6ApBody 40 demoStore2_full
        (by decide))
  · intro hq
    have hx := hq.1
      { id := 40, patientId := 10, doctorId := 1, date := 100, time := "09:00",
        status := .CANCELLED, type := .GENERAL, notes := none,
        queueNumber := some 1 }
      (by decide) rfl
    exact absurd hx (by decide)

/-- Witness for C7 on the concrete creation-only store holding appointments
with queue numbers 1 and null (cancelled). -/
theorem C7_queue_invariant_witness : QueueInv c6Store2 :=
  C7_queue_invariant c6Store2
    (QueueReach.appointmentsCreateStep c6Store1 c6CancelBody 41
      (QueueReach.appointmentsCreateStep demoStore2 c6ApBody 40
        (QueueReach.bedsCreateStep demoStore1 demoBedBody 20
          (QueueReach.patientsCreateStep demoStore0 ("MRN0001") 10
            (QueueReach.init [demoDoctor]) (by decide)) (by decide))
        (by decide))
      (by decide))

/-! ## Claim C8: dashboard summary -/

/-- The integer-division form used in the embedding computes exactly the
rational round-half-up of `o / t * 100`. -/
theorem jsRoundPercent_eq_round (o t : Nat) (ht : 0 < t) :
    (jsRoundPercent o t : ℤ) = round ((o : ℚ) / (t : ℚ) * 100) := by
  have htQ : (t : ℚ) ≠ 0 := Nat.cast_ne_zero.mpr ht.ne'
  have harg : (o : ℚ) / (t : ℚ) * 100 + 1 / 2 =
      ((200 * o + t : ℕ) : ℚ) / ((2 * t : ℕ) : ℚ) := by
    push_cast
    field_simp
    ring
  rw [round_eq, harg,
    ← Int.natCast_floor_eq_floor (by positivity),
    Nat.floor_div_eq_div]
  rfl

/-- C8: the summary's occupancyRate is the rounded percentage
`round(occupiedBeds / totalBeds × 100)` whenever there are beds, and 0 when
there are none; on the empty store every count is 0 and both result lists
are empty. -/
theorem C8_dashboard_summary (s : Store) (today tomorrow : Nat) :
    ((dashboardSummary today tomorrow s).totalBeds > 0 →
      ((dashboardSummary today tomorrow s).occupancyRate : ℤ) =
        round (((dashboardSummary today tomorrow s).occupiedBeds : ℚ) /
          ((dashboardSummary today tomorrow s).totalBeds : ℚ) * 100)) ∧
    ((dashboardSummary today tomorrow s).totalBeds = 0 →
      (dashboardSummary today tomorrow s).occupancyRate = 0) ∧
    dashboardSummary today tomorrow (initStore []) =
      { totalPatients := 0
        totalAppointments := 0
        appointmentsToday := 0
        availableBeds := 0
        occupiedBeds := 0
        totalBeds := 0
        occupancyRate := 0
        lowStockItems := 0
        recentAdmissions := []
        upcomingAppointments := [] } := by
  refine ⟨?_, ?_, ?_⟩
  · intro ht
    have ht2 : 0 < s.beds.length := ht
    show ((if s.beds.length > 0 then
      jsRoundPercent (s.beds.filter (fun b => decide (b.status = .OCCUPIED))).length
        s.beds.length else 0 : Nat) : ℤ) = _
    rw [if_pos ht2]
    exact jsRoundPercent_eq_round _ _ ht2
  · intro ht
    have ht2 : ¬ s.beds.length > 0 := by
      intro hcontra
      exact absurd ht (Nat.pos_iff_ne_zero.mp hcontra)
    show (if s.beds.length > 0 then _ else 0) = 0
    rw [if_neg ht2]
  · simp [dashboardSummary, initStore, List.mergeSort_nil]

/-- Witness for C8 on the demo store with one occupied bed out of one. -/
theorem C8_dashboard_summary_witness :
    ((dashboardSummary 0 1 demoStore3).occupancyRate : ℤ) =
      round (((dashboardSummary 0 1 demoStore3).occupiedBeds : ℚ) /
        ((dashboardSummary 0 1 demoStore3).totalBeds : ℚ) * 100) :=
  (C8_dashboard_summary demoStore3 0 1).1 (by decide)

end MediConnect
